import Mathlib

/-!
Verification development for the ellipsis-lexer-parser repository.

The development shallowly embeds the three source components:
* `src/lexer.ts` — the tokenizer (`Lexer.nextToken` / `Lexer.tokenize`);
* `src/ll1Parser.ts` — the grammar data (`NON_TERMINALS`, `TERMINALS`,
  `PRODUCTIONS`), the FIRST/FOLLOW fixed-point engines, the LL(1) parse-table
  builder, the token-to-terminal mapper and the table-driven parser;
* `src/parser.ts` — the recursive-descent parser (`Parser.parseProgram`).

JavaScript `Map`/`Set` values are embedded as association lists / lists that
preserve insertion order; `Set.add` becomes append-if-absent.  Thrown
exceptions become `Except` results carrying the source position and message.
-/

/-! ## Token model (src/lexer.ts) -/

/-- Token classes of the lexer (`TokenType` in src/lexer.ts). -/
inductive TokenType where
  | Identifier
  | Number
  | String
  | Keyword
  | Operator
  | Punctuation
  | EOF
deriving DecidableEq, Repr

/-- The `Token` record of src/lexer.ts. -/
structure Token where
  type : TokenType
  lexeme : String
  line : Nat
  column : Nat
deriving DecidableEq, Repr

/-- Errors thrown by the lexer (`Lexical error at line:column: msg`).  The
position is kept in fields; `msg` is the text after the position. -/
structure LexErr where
  line : Nat
  column : Nat
  msg : String
deriving DecidableEq, Repr

/-- Errors thrown through the `syntaxError` helpers of src/ll1Parser.ts and
src/parser.ts (`Syntax error at line:column: msg.`).  The position is kept in
fields; `msg` is the message text. -/
structure PErr where
  line : Nat
  column : Nat
  msg : String
deriving DecidableEq, Repr

/-! ## LL(1) grammar data (src/ll1Parser.ts) -/

/-- `const EPSILON = 'ε'`. -/
def EPSILON : String := "ε"

/-- `interface Production` of src/ll1Parser.ts. -/
structure Production where
  head : String
  body : List String
deriving DecidableEq, Repr

/-- `NON_TERMINALS` of src/ll1Parser.ts, in declaration order. -/
def NON_TERMINALS : List String :=
  ["Program", "StmtList", "Stmt", "VarDecl", "VarKw", "VarInitOpt",
   "RecipeDecl", "ParamListOpt", "ParamList", "ParamListTail", "IfStmt",
   "IfElseOpt", "WhileStmt", "ReturnStmt", "ExprOpt", "Block", "AssignStmt",
   "Expr", "OrExpr", "OrExprTail", "AndExpr", "AndExprTail", "EqualityExpr",
   "EqualityExprTail", "RelExpr", "RelExprTail", "AddExpr", "AddExprTail",
   "MulExpr", "MulExprTail", "UnaryExpr", "Primary", "CallTail", "ArgListOpt",
   "ArgList", "ArgListTail"]

/-- `TERMINALS` of src/ll1Parser.ts, in declaration order. -/
def TERMINALS : List String :=
  ["KW_put", "KW_take", "KW_recipe", "KW_if", "KW_else", "KW_meanwhile",
   "KW_return", "KW_true", "KW_false", "KW_empty",
   "ID", "NUMBER", "STRING",
   "LBRACE", "RBRACE", "LPAREN", "RPAREN", "SEMICOLON", "COMMA",
   "OP_ASSIGN", "OP_OR", "OP_AND", "OP_EQ", "OP_NE", "OP_LT", "OP_LE",
   "OP_GT", "OP_GE", "OP_PLUS", "OP_MINUS", "OP_STAR", "OP_SLASH",
   "OP_PERCENT", "OP_NOT", "$"]

/-- `START_SYMBOL` of src/ll1Parser.ts. -/
def START_SYMBOL : String := "Program"

/-- `PRODUCTIONS` of src/ll1Parser.ts, in declaration order. -/
def PRODUCTIONS : List Production :=
  [⟨"Program", ["StmtList", "$"]⟩,
   ⟨"StmtList", ["Stmt", "StmtList"]⟩,
   ⟨"StmtList", [EPSILON]⟩,
   ⟨"Stmt", ["VarDecl"]⟩,
   ⟨"Stmt", ["RecipeDecl"]⟩,
   ⟨"Stmt", ["IfStmt"]⟩,
   ⟨"Stmt", ["WhileStmt"]⟩,
   ⟨"Stmt", ["ReturnStmt"]⟩,
   ⟨"Stmt", ["Block"]⟩,
   ⟨"Stmt", ["AssignStmt"]⟩,
   ⟨"VarDecl", ["VarKw", "ID", "VarInitOpt", "SEMICOLON"]⟩,
   ⟨"VarKw", ["KW_put"]⟩,
   ⟨"VarKw", ["KW_take"]⟩,
   ⟨"VarInitOpt", ["OP_ASSIGN", "Expr"]⟩,
   ⟨"VarInitOpt", [EPSILON]⟩,
   ⟨"AssignStmt", ["ID", "OP_ASSIGN", "Expr", "SEMICOLON"]⟩,
   ⟨"RecipeDecl", ["KW_recipe", "ID", "LPAREN", "ParamListOpt", "RPAREN", "Block"]⟩,
   ⟨"ParamListOpt", ["ParamList"]⟩,
   ⟨"ParamListOpt", [EPSILON]⟩,
   ⟨"ParamList", ["ID", "ParamListTail"]⟩,
   ⟨"ParamListTail", ["COMMA", "ID", "ParamListTail"]⟩,
   ⟨"ParamListTail", [EPSILON]⟩,
   ⟨"IfStmt", ["KW_if", "LPAREN", "Expr", "RPAREN", "Stmt", "IfElseOpt"]⟩,
   ⟨"IfElseOpt", ["KW_else", "Stmt"]⟩,
   ⟨"IfElseOpt", [EPSILON]⟩,
   ⟨"WhileStmt", ["KW_meanwhile", "LPAREN", "Expr", "RPAREN", "Stmt"]⟩,
   ⟨"ReturnStmt", ["KW_return", "ExprOpt", "SEMICOLON"]⟩,
   ⟨"ExprOpt", ["Expr"]⟩,
   ⟨"ExprOpt", [EPSILON]⟩,
   ⟨"Block", ["LBRACE", "StmtList", "RBRACE"]⟩,
   ⟨"Expr", ["OrExpr"]⟩,
   ⟨"OrExpr", ["AndExpr", "OrExprTail"]⟩,
   ⟨"OrExprTail", ["OP_OR", "AndExpr", "OrExprTail"]⟩,
   ⟨"OrExprTail", [EPSILON]⟩,
   ⟨"AndExpr", ["EqualityExpr", "AndExprTail"]⟩,
   ⟨"AndExprTail", ["OP_AND", "EqualityExpr", "AndExprTail"]⟩,
   ⟨"AndExprTail", [EPSILON]⟩,
   ⟨"EqualityExpr", ["RelExpr", "EqualityExprTail"]⟩,
   ⟨"EqualityExprTail", ["OP_EQ", "RelExpr", "EqualityExprTail"]⟩,
   ⟨"EqualityExprTail", ["OP_NE", "RelExpr", "EqualityExprTail"]⟩,
   ⟨"EqualityExprTail", [EPSILON]⟩,
   ⟨"RelExpr", ["AddExpr", "RelExprTail"]⟩,
   ⟨"RelExprTail", ["OP_LT", "AddExpr", "RelExprTail"]⟩,
   ⟨"RelExprTail", ["OP_LE", "AddExpr", "RelExprTail"]⟩,
   ⟨"RelExprTail", ["OP_GT", "AddExpr", "RelExprTail"]⟩,
   ⟨"RelExprTail", ["OP_GE", "AddExpr", "RelExprTail"]⟩,
   ⟨"RelExprTail", [EPSILON]⟩,
   ⟨"AddExpr", ["MulExpr", "AddExprTail"]⟩,
   ⟨"AddExprTail", ["OP_PLUS", "MulExpr", "AddExprTail"]⟩,
   ⟨"AddExprTail", ["OP_MINUS", "MulExpr", "AddExprTail"]⟩,
   ⟨"AddExprTail", [EPSILON]⟩,
   ⟨"MulExpr", ["UnaryExpr", "MulExprTail"]⟩,
   ⟨"MulExprTail", ["OP_STAR", "UnaryExpr", "MulExprTail"]⟩,
   ⟨"MulExprTail", ["OP_SLASH", "UnaryExpr", "MulExprTail"]⟩,
   ⟨"MulExprTail", ["OP_PERCENT", "UnaryExpr", "MulExprTail"]⟩,
   ⟨"MulExprTail", [EPSILON]⟩,
   ⟨"UnaryExpr", ["OP_NOT", "UnaryExpr"]⟩,
   ⟨"UnaryExpr", ["OP_PLUS", "UnaryExpr"]⟩,
   ⟨"UnaryExpr", ["OP_MINUS", "UnaryExpr"]⟩,
   ⟨"UnaryExpr", ["Primary"]⟩,
   ⟨"Primary", ["NUMBER"]⟩,
   ⟨"Primary", ["STRING"]⟩,
   ⟨"Primary", ["KW_true"]⟩,
   ⟨"Primary", ["KW_false"]⟩,
   ⟨"Primary", ["KW_empty"]⟩,
   ⟨"Primary", ["ID", "CallTail"]⟩,
   ⟨"Primary", ["LPAREN", "Expr", "RPAREN"]⟩,
   ⟨"CallTail", ["LPAREN", "ArgListOpt", "RPAREN"]⟩,
   ⟨"CallTail", [EPSILON]⟩,
   ⟨"ArgListOpt", ["ArgList"]⟩,
   ⟨"ArgListOpt", [EPSILON]⟩,
   ⟨"ArgList", ["Expr", "ArgListTail"]⟩,
   ⟨"ArgListTail", ["COMMA", "Expr", "ArgListTail"]⟩,
   ⟨"ArgListTail", [EPSILON]⟩]

/-! ## Insertion-ordered maps and sets

JavaScript `Map` and `Set` iterate in insertion order.  They are embedded as
association lists / plain lists; `Set.add` is append-if-absent and
`Map.set` on an existing key is an in-place value update. -/

/-- `Map.get`: first binding of the key, if any. -/
def lookupA {α : Type} (m : List (String × α)) (k : String) : Option α :=
  match m with
  | [] => none
  | (k', v) :: rest => if k' = k then some v else lookupA rest k

/-- Update the value bound to a present key (used for `Map.get` followed by
in-place mutation of the retrieved `Set`). -/
def updateA {α : Type} (m : List (String × α)) (k : String) (v : α) :
    List (String × α) :=
  m.map (fun kv => if kv.1 = k then (k, v) else kv)

/-- `Set.add`: append if not already a member (insertion order preserved). -/
def addIfAbsent (l : List String) (x : String) : List String :=
  if x ∈ l then l else l ++ [x]

/-- Add every element of `src` to `dst`, in order (the `for ... of` loops that
copy one set into another). -/
def addAll (dst src : List String) : List String :=
  src.foldl addIfAbsent dst

/-- FIRST table: symbol name to set of terminals and possibly `ε`. -/
abbrev FirstMap : Type := List (String × List String)

/-- FOLLOW table: non-terminal name to set of terminals. -/
abbrev FollowMap : Type := List (String × List String)

/-- Iterate `f` until a pass produces no change (the `changed` flag loops of
`computeFirstSets` / `computeFollowSets`), with fuel standing in for the
termination argument of the source's while-loop. -/
def iterFix {α : Type} [DecidableEq α] : Nat → (α → α) → α → α
  | 0, _, x => x
  | n + 1, f, x => let y := f x; if y = x then x else iterFix n f y

/-! ## FIRST sets (`computeFirstSets`) -/

/-- The body walk shared by `computeFirstSets` and `buildParseTable`:
starting from `acc`, add `FIRST(symbol) \ ε` for each body symbol from the
left, stop at the first non-nullable symbol, and add `ε` when every symbol
was nullable. -/
def firstBodyAcc (first : FirstMap) : List String → List String → List String
  | acc, [] => addIfAbsent acc EPSILON
  | acc, s :: rest =>
    let fs := (lookupA first s).getD []
    let acc' := addAll acc (fs.filter (fun x => x ≠ EPSILON))
    if EPSILON ∈ fs then firstBodyAcc first acc' rest else acc'

/-- Initial FIRST table: `FIRST(t) = {t}` for each terminal, `FIRST(ε) = {ε}`,
empty sets for the non-terminals (insertion order of `computeFirstSets`). -/
def initFirst : FirstMap :=
  TERMINALS.map (fun t => (t, [t])) ++ [(EPSILON, [EPSILON])]
    ++ NON_TERMINALS.map (fun nt => (nt, []))

/-- One pass of the `while (changed)` loop of `computeFirstSets`: every
production updates `FIRST(head)` in place, later productions seeing earlier
updates of the same pass. -/
def firstPass (first : FirstMap) : FirstMap :=
  PRODUCTIONS.foldl
    (fun f p => updateA f p.head (firstBodyAcc f ((lookupA f p.head).getD []) p.body))
    first

/-- `computeFirstSets()`: iterate passes to the fixed point. -/
def computeFirstSets : FirstMap := iterFix 100 firstPass initFirst

/-! ## FOLLOW sets (`computeFollowSets`) -/

/-- Walk of `β = body[i+1..]` inside `computeFollowSets`: add
`FIRST(symbol) \ ε` to the accumulating FOLLOW set; the boolean tells whether
the whole of `β` was nullable. -/
def followBeta (first : FirstMap) : List String → List String → List String × Bool
  | fb, [] => (fb, true)
  | fb, s :: rest =>
    let fs := (lookupA first s).getD []
    let fb' := addAll fb (fs.filter (fun x => x ≠ EPSILON))
    if EPSILON ∈ fs then followBeta first fb' rest else (fb', false)

/-- The position loop of `computeFollowSets` for one production: for each
suffix `B :: β` of the body with `B` a non-terminal, extend `FOLLOW(B)` with
`FIRST(β) \ ε`, and with `FOLLOW(head)` when `β` is nullable. -/
def followOcc (first : FirstMap) (head : String) :
    FollowMap → List String → FollowMap
  | fl, [] => fl
  | fl, B :: beta =>
    let fl' :=
      if B ∈ NON_TERMINALS then
        let fb := (lookupA fl B).getD []
        let step := followBeta first fb beta
        let fb2 := if step.2 then addAll step.1 ((lookupA fl head).getD []) else step.1
        updateA fl B fb2
      else fl
    followOcc first head fl' beta

/-- Initial FOLLOW table: empty sets, except `$ ∈ FOLLOW(START_SYMBOL)`. -/
def initFollow : FollowMap :=
  NON_TERMINALS.map (fun nt => (nt, if nt = START_SYMBOL then ["$"] else []))

/-- One pass of the `while (changed)` loop of `computeFollowSets`. -/
def followPass (first : FirstMap) (fl : FollowMap) : FollowMap :=
  PRODUCTIONS.foldl (fun fl p => followOcc first p.head fl p.body) fl

/-- `computeFollowSets(first)`. -/
def computeFollowSets (first : FirstMap) : FollowMap :=
  iterFix 100 (followPass first) initFollow

/-! ## Parse table (`buildParseTable`) -/

/-- A row of the LL(1) table: terminal name to chosen production. -/
abbrev TableRow : Type := List (String × Production)

/-- The LL(1) table: non-terminal name to row. -/
abbrev ParseTable : Type := List (String × TableRow)

/-- `row.set(tok, prod)` guarded by `if (!row.has(tok))`: first writer wins. -/
def rowInsert (row : TableRow) (ts : List String) (p : Production) : TableRow :=
  ts.foldl (fun r t => if (lookupA r t).isSome then r else r ++ [(t, p)]) row

/-- `FIRST(body)` as computed afresh inside `buildParseTable`. -/
def firstOfBody (first : FirstMap) (body : List String) : List String :=
  firstBodyAcc first [] body

/-- Processing of a single production inside `buildParseTable`: skip heads
that are not declared non-terminals; otherwise write the production into its
row under every terminal of `FIRST(body) \ ε`, and, when `ε ∈ FIRST(body)`,
under every terminal of `FOLLOW(head)` — each write first-writer-wins. -/
def applyProd (first : FirstMap) (follow : FollowMap)
    (table : ParseTable) (p : Production) : ParseTable :=
  if p.head ∈ NON_TERMINALS then
    let fb := firstOfBody first p.body
    let row := (lookupA table p.head).getD []
    let row1 := rowInsert row (fb.filter (fun x => x ≠ EPSILON)) p
    let row2 :=
      if EPSILON ∈ fb then rowInsert row1 ((lookupA follow p.head).getD []) p
      else row1
    updateA table p.head row2
  else table

/-- `buildParseTable(first, follow)`. -/
def buildParseTable (first : FirstMap) (follow : FollowMap) : ParseTable :=
  PRODUCTIONS.foldl (applyProd first follow)
    (NON_TERMINALS.map (fun nt => (nt, ([] : TableRow))))

/-- Lookup of a single cell `table.get(head)?.get(t)`. -/
def lookupCell (table : ParseTable) (head t : String) : Option Production :=
  (lookupA table head).bind (fun row => lookupA row t)

/-- The computed FIRST table of the fixed grammar. -/
def realFirst : FirstMap := computeFirstSets

/-- The computed FOLLOW table of the fixed grammar. -/
def realFollow : FollowMap := computeFollowSets realFirst

/-- The LL(1) table built once per `runLL1` call. -/
def realTable : ParseTable := buildParseTable realFirst realFollow

deriving instance DecidableEq for Except

/-! ## Token to terminal mapping (`tokenToTerminal`) -/

/-- String rendering of a token class, as interpolated by the final
`syntaxError` of `tokenToTerminal`. -/
def tokenTypeName : TokenType → String
  | .Identifier => "Identifier"
  | .Number => "Number"
  | .String => "String"
  | .Keyword => "Keyword"
  | .Operator => "Operator"
  | .Punctuation => "Punctuation"
  | .EOF => "EOF"

/-- `tokenToTerminal(t)`: maps a token to the grammar terminal it stands for,
or throws (here: returns `.error`) when the class/lexeme combination has no
terminal.  The `if`/`switch` chain of the source becomes a match on the token
class and the lexeme; the source's final catch-all `syntaxError` is
unreachable because every token class has a branch.  The thrown messages
keep the source's Portuguese text. -/
def tokenToTerminal (t : Token) : Except PErr String :=
  match t.type with
  | .EOF => .ok "$"
  | .Keyword =>
    match t.lexeme with
    | "put" => .ok "KW_put"
    | "take" => .ok "KW_take"
    | "recipe" => .ok "KW_recipe"
    | "if" => .ok "KW_if"
    | "else" => .ok "KW_else"
    | "meanwhile" => .ok "KW_meanwhile"
    | "return" => .ok "KW_return"
    | "true" => .ok "KW_true"
    | "false" => .ok "KW_false"
    | "empty" => .ok "KW_empty"
    | _ => .error ⟨t.line, t.column,
        "keyword '" ++ t.lexeme ++ "' não está na gramática LL(1)'"⟩
  | .Identifier => .ok "ID"
  | .Number => .ok "NUMBER"
  | .String => .ok "STRING"
  | .Punctuation =>
    match t.lexeme with
    | "\x7b" => .ok "LBRACE"
    | "\x7d" => .ok "RBRACE"
    | "(" => .ok "LPAREN"
    | ")" => .ok "RPAREN"
    | ";" => .ok "SEMICOLON"
    | "," => .ok "COMMA"
    | _ => .error ⟨t.line, t.column,
        "pontuação '" ++ t.lexeme ++ "' não está na gramática LL(1)'"⟩
  | .Operator =>
    match t.lexeme with
    | "=" => .ok "OP_ASSIGN"
    | "||" => .ok "OP_OR"
    | "&&" => .ok "OP_AND"
    | "==" | "===" => .ok "OP_EQ"
    | "!=" | "!==" => .ok "OP_NE"
    | "<" => .ok "OP_LT"
    | "<=" => .ok "OP_LE"
    | ">" => .ok "OP_GT"
    | ">=" => .ok "OP_GE"
    | "+" => .ok "OP_PLUS"
    | "-" => .ok "OP_MINUS"
    | "*" => .ok "OP_STAR"
    | "/" => .ok "OP_SLASH"
    | "%" => .ok "OP_PERCENT"
    | "!" => .ok "OP_NOT"
    | _ => .error ⟨t.line, t.column,
        "operador '" ++ t.lexeme ++ "' não está na gramática LL(1)'"⟩

/-! ## Table-driven parser (`class LL1Parser`) -/

namespace LL1Parser

/-- Parser configuration: the explicit symbol stack (top at the head; the
source array keeps the top at its end) and the token cursor `index`. -/
structure Config where
  stack : List String
  idx : Nat
deriving DecidableEq, Repr

/-- `currentToken()`: `tokens[index] ?? tokens[tokens.length - 1]`. -/
def currentToken (ts : List Token) (i : Nat) : Option Token :=
  (ts.get? i).orElse (fun _ => ts.get? (ts.length - 1))

/-- `advance()`: `if (index < tokens.length) index++`. -/
def advanceIdx (ts : List Token) (i : Nat) : Nat :=
  if i < ts.length then i + 1 else i

/-- Push of a production body in reverse order, skipping the `ε` marker
(the expansion loop at the end of `parse`).  With the stack top at the head
this is a filtered prepend. -/
def pushBody (body : List String) (rest : List String) : List String :=
  body.filter (fun s => s ≠ EPSILON) ++ rest

/-- Outcome of one iteration of `parse`'s while-loop. -/
inductive StepRes where
  | err (e : PErr)
  | next (c : Config)
  | finished (i : Nat)
deriving DecidableEq, Repr

/-- One iteration of the `while (stack.length > 0)` loop of `parse`.  The
loop condition becomes `finished`; reading the lookahead through
`currentToken` on an empty token array (a `TypeError` in the source) becomes
a distinguished error. -/
def stepCfg (table : ParseTable) (ts : List Token) (c : Config) : StepRes :=
  match c.stack with
  | [] => .finished c.idx
  | X :: rest =>
    match currentToken ts c.idx with
    | none => .err ⟨0, 0, "TypeError: nenhum token"⟩
    | some la =>
      match tokenToTerminal la with
      | .error e => .err e
      | .ok a =>
        if X ∈ TERMINALS then
          if X = a then .next ⟨rest, advanceIdx ts c.idx⟩
          else .err ⟨la.line, la.column,
            "esperado terminal '" ++ X ++ "' no topo da pilha, encontrado '" ++ a ++ "'"⟩
        else if X = EPSILON then .next ⟨rest, c.idx⟩
        else
          match lookupA table X with
          | none => .err ⟨la.line, la.column,
              "não existe linha na tabela para não-terminal '" ++ X ++ "'"⟩
          | some row =>
            match lookupA row a with
            | none => .err ⟨la.line, la.column,
                "não existe produção LL(1) para par (" ++ X ++ ", " ++ a ++ ")"⟩
            | some prod => .next ⟨pushBody prod.body rest, c.idx⟩

/-- Result of running the loop to completion: an in-loop error, the final
cursor when the stack emptied, or fuel exhaustion (`out`). -/
inductive LoopRes where
  | err (e : PErr)
  | done (i : Nat)
  | out
deriving DecidableEq, Repr

/-- The while-loop of `parse`, driven by fuel. -/
def parseLoop (table : ParseTable) (ts : List Token) : Nat → Config → LoopRes
  | 0, _ => .out
  | fuel + 1, c =>
    match stepCfg table ts c with
    | .err e => .err e
    | .finished i => .done i
    | .next c' => parseLoop table ts fuel c'

/-- The message of the leftover-input `syntaxError` after the loop. -/
def notConsumedMsg : String :=
  "entrada não foi completamente consumida pelo analisador LL(1)"

/-- The check after the loop: the lookahead left at cursor `i` must map to
the end-of-input terminal `$`. -/
def acceptCheck (ts : List Token) (i : Nat) : Except PErr Unit :=
  match currentToken ts i with
  | none => .error ⟨0, 0, "TypeError: nenhum token"⟩
  | some la =>
    match tokenToTerminal la with
    | .error e => .error e
    | .ok a =>
      if a = "$" then .ok ()
      else .error ⟨la.line, la.column, notConsumedMsg⟩

/-- The initial stack `['$', start]` (top at the head here). -/
def initConfig : Config := ⟨[START_SYMBOL, "$"], 0⟩

/-- `LL1Parser.parse()`: run the loop from the initial configuration, then
apply the end-of-input check.  `none` stands for fuel exhaustion; a source
run that terminates is `some` of its outcome. -/
def parse (table : ParseTable) (ts : List Token) (fuel : Nat) :
    Option (Except PErr Unit) :=
  match parseLoop table ts fuel initConfig with
  | .err e => some (.error e)
  | .done i => some (acceptCheck ts i)
  | .out => none

end LL1Parser


/-! ## Computed values of the engines

The fixed-point engines run a small number of passes on the fixed grammar.
The intermediate tables of each pass are recorded below as literals
(`firstL0` is the initial table, `firstL1 = firstPass firstL0`, and so on up
to the fixed point `firstL10`; likewise `followL0`–`followL2` for FOLLOW),
so that every later fact about the computed tables reduces to a single
bounded evaluation step. -/

set_option maxRecDepth 200000

def firstL0 : FirstMap :=
  [("KW_put", ["KW_put"]),
   ("KW_take", ["KW_take"]),
   ("KW_recipe", ["KW_recipe"]),
   ("KW_if", ["KW_if"]),
   ("KW_else", ["KW_else"]),
   ("KW_meanwhile", ["KW_meanwhile"]),
   ("KW_return", ["KW_return"]),
   ("KW_true", ["KW_true"]),
   ("KW_false", ["KW_false"]),
   ("KW_empty", ["KW_empty"]),
   ("ID", ["ID"]),
   ("NUMBER", ["NUMBER"]),
   ("STRING", ["STRING"]),
   ("LBRACE", ["LBRACE"]),
   ("RBRACE", ["RBRACE"]),
   ("LPAREN", ["LPAREN"]),
   ("RPAREN", ["RPAREN"]),
   ("SEMICOLON", ["SEMICOLON"]),
   ("COMMA", ["COMMA"]),
   ("OP_ASSIGN", ["OP_ASSIGN"]),
   ("OP_OR", ["OP_OR"]),
   ("OP_AND", ["OP_AND"]),
   ("OP_EQ", ["OP_EQ"]),
   ("OP_NE", ["OP_NE"]),
   ("OP_LT", ["OP_LT"]),
   ("OP_LE", ["OP_LE"]),
   ("OP_GT", ["OP_GT"]),
   ("OP_GE", ["OP_GE"]),
   ("OP_PLUS", ["OP_PLUS"]),
   ("OP_MINUS", ["OP_MINUS"]),
   ("OP_STAR", ["OP_STAR"]),
   ("OP_SLASH", ["OP_SLASH"]),
   ("OP_PERCENT", ["OP_PERCENT"]),
   ("OP_NOT", ["OP_NOT"]),
   ("$", ["$"]),
   ("ε", ["ε"]),
   ("Program", []),
   ("StmtList", []),
   ("Stmt", []),
   ("VarDecl", []),
   ("VarKw", []),
   ("VarInitOpt", []),
   ("RecipeDecl", []),
   ("ParamListOpt", []),
   ("ParamList", []),
   ("ParamListTail", []),
   ("IfStmt", []),
   ("IfElseOpt", []),
   ("WhileStmt", []),
   ("ReturnStmt", []),
   ("ExprOpt", []),
   ("Block", []),
   ("AssignStmt", []),
   ("Expr", []),
   ("OrExpr", []),
   ("OrExprTail", []),
   ("AndExpr", []),
   ("AndExprTail", []),
   ("EqualityExpr", []),
   ("EqualityExprTail", []),
   ("RelExpr", []),
   ("RelExprTail", []),
   ("AddExpr", []),
   ("AddExprTail", []),
   ("MulExpr", []),
   ("MulExprTail", []),
   ("UnaryExpr", []),
   ("Primary", []),
   ("CallTail", []),
   ("ArgListOpt", []),
   ("ArgList", []),
   ("ArgListTail", [])]

def firstL1 : FirstMap :=
  [("KW_put", ["KW_put"]),
   ("KW_take", ["KW_take"]),
   ("KW_recipe", ["KW_recipe"]),
   ("KW_if", ["KW_if"]),
   ("KW_else", ["KW_else"]),
   ("KW_meanwhile", ["KW_meanwhile"]),
   ("KW_return", ["KW_return"]),
   ("KW_true", ["KW_true"]),
   ("KW_false", ["KW_false"]),
   ("KW_empty", ["KW_empty"]),
   ("ID", ["ID"]),
   ("NUMBER", ["NUMBER"]),
   ("STRING", ["STRING"]),
   ("LBRACE", ["LBRACE"]),
   ("RBRACE", ["RBRACE"]),
   ("LPAREN", ["LPAREN"]),
   ("RPAREN", ["RPAREN"]),
   ("SEMICOLON", ["SEMICOLON"]),
   ("COMMA", ["COMMA"]),
   ("OP_ASSIGN", ["OP_ASSIGN"]),
   ("OP_OR", ["OP_OR"]),
   ("OP_AND", ["OP_AND"]),
   ("OP_EQ", ["OP_EQ"]),
   ("OP_NE", ["OP_NE"]),
   ("OP_LT", ["OP_LT"]),
   ("OP_LE", ["OP_LE"]),
   ("OP_GT", ["OP_GT"]),
   ("OP_GE", ["OP_GE"]),
   ("OP_PLUS", ["OP_PLUS"]),
   ("OP_MINUS", ["OP_MINUS"]),
   ("OP_STAR", ["OP_STAR"]),
   ("OP_SLASH", ["OP_SLASH"]),
   ("OP_PERCENT", ["OP_PERCENT"]),
   ("OP_NOT", ["OP_NOT"]),
   ("$", ["$"]),
   ("ε", ["ε"]),
   ("Program", []),
   ("StmtList", ["ε"]),
   ("Stmt", []),
   ("VarDecl", []),
   ("VarKw", ["KW_put", "KW_take"]),
   ("VarInitOpt", ["OP_ASSIGN", "ε"]),
   ("RecipeDecl", ["KW_recipe"]),
   ("ParamListOpt", ["ε"]),
   ("ParamList", ["ID"]),
   ("ParamListTail", ["COMMA", "ε"]),
   ("IfStmt", ["KW_if"]),
   ("IfElseOpt", ["KW_else", "ε"]),
   ("WhileStmt", ["KW_meanwhile"]),
   ("ReturnStmt", ["KW_return"]),
   ("ExprOpt", ["ε"]),
   ("Block", ["LBRACE"]),
   ("AssignStmt", ["ID"]),
   ("Expr", []),
   ("OrExpr", []),
   ("OrExprTail", ["OP_OR", "ε"]),
   ("AndExpr", []),
   ("AndExprTail", ["OP_AND", "ε"]),
   ("EqualityExpr", []),
   ("EqualityExprTail", ["OP_EQ", "OP_NE", "ε"]),
   ("RelExpr", []),
   ("RelExprTail", ["OP_LT", "OP_LE", "OP_GT", "OP_GE", "ε"]),
   ("AddExpr", []),
   ("AddExprTail", ["OP_PLUS", "OP_MINUS", "ε"]),
   ("MulExpr", []),
   ("MulExprTail", ["OP_STAR", "OP_SLASH", "OP_PERCENT", "ε"]),
   ("UnaryExpr", ["OP_NOT", "OP_PLUS", "OP_MINUS"]),
   ("Primary", ["NUMBER", "STRING", "KW_true", "KW_false", "KW_empty", "ID", "LPAREN"]),
   ("CallTail", ["LPAREN", "ε"]),
   ("ArgListOpt", ["ε"]),
   ("ArgList", []),
   ("ArgListTail", ["COMMA", "ε"])]

def firstL2 : FirstMap :=
  [("KW_put", ["KW_put"]),
   ("KW_take", ["KW_take"]),
   ("KW_recipe", ["KW_recipe"]),
   ("KW_if", ["KW_if"]),
   ("KW_else", ["KW_else"]),
   ("KW_meanwhile", ["KW_meanwhile"]),
   ("KW_return", ["KW_return"]),
   ("KW_true", ["KW_true"]),
   ("KW_false", ["KW_false"]),
   ("KW_empty", ["KW_empty"]),
   ("ID", ["ID"]),
   ("NUMBER", ["NUMBER"]),
   ("STRING", ["STRING"]),
   ("LBRACE", ["LBRACE"]),
   ("RBRACE", ["RBRACE"]),
   ("LPAREN", ["LPAREN"]),
   ("RPAREN", ["RPAREN"]),
   ("SEMICOLON", ["SEMICOLON"]),
   ("COMMA", ["COMMA"]),
   ("OP_ASSIGN", ["OP_ASSIGN"]),
   ("OP_OR", ["OP_OR"]),
   ("OP_AND", ["OP_AND"]),
   ("OP_EQ", ["OP_EQ"]),
   ("OP_NE", ["OP_NE"]),
   ("OP_LT", ["OP_LT"]),
   ("OP_LE", ["OP_LE"]),
   ("OP_GT", ["OP_GT"]),
   ("OP_GE", ["OP_GE"]),
   ("OP_PLUS", ["OP_PLUS"]),
   ("OP_MINUS", ["OP_MINUS"]),
   ("OP_STAR", ["OP_STAR"]),
   ("OP_SLASH", ["OP_SLASH"]),
   ("OP_PERCENT", ["OP_PERCENT"]),
   ("OP_NOT", ["OP_NOT"]),
   ("$", ["$"]),
   ("ε", ["ε"]),
   ("Program", ["$"]),
   ("StmtList", ["ε"]),
   ("Stmt", ["KW_recipe", "KW_if", "KW_meanwhile", "KW_return", "LBRACE", "ID"]),
   ("VarDecl", ["KW_put", "KW_take"]),
   ("VarKw", ["KW_put", "KW_take"]),
   ("VarInitOpt", ["OP_ASSIGN", "ε"]),
   ("RecipeDecl", ["KW_recipe"]),
   ("ParamListOpt", ["ε", "ID"]),
   ("ParamList", ["ID"]),
   ("ParamListTail", ["COMMA", "ε"]),
   ("IfStmt", ["KW_if"]),
   ("IfElseOpt", ["KW_else", "ε"]),
   ("WhileStmt", ["KW_meanwhile"]),
   ("ReturnStmt", ["KW_return"]),
   ("ExprOpt", ["ε"]),
   ("Block", ["LBRACE"]),
   ("AssignStmt", ["ID"]),
   ("Expr", []),
   ("OrExpr", []),
   ("OrExprTail", ["OP_OR", "ε"]),
   ("AndExpr", []),
   ("AndExprTail", ["OP_AND", "ε"]),
   ("EqualityExpr", []),
   ("EqualityExprTail", ["OP_EQ", "OP_NE", "ε"]),
   ("RelExpr", []),
   ("RelExprTail", ["OP_LT", "OP_LE", "OP_GT", "OP_GE", "ε"]),
   ("AddExpr", []),
   ("AddExprTail", ["OP_PLUS", "OP_MINUS", "ε"]),
   ("MulExpr", ["OP_NOT", "OP_PLUS", "OP_MINUS"]),
   ("MulExprTail", ["OP_STAR", "OP_SLASH", "OP_PERCENT", "ε"]),
   ("UnaryExpr", ["OP_NOT", "OP_PLUS", "OP_MINUS", "NUMBER", "STRING", "KW_true", "KW_false", "KW_empty", "ID", "LPAREN"]),
   ("Primary", ["NUMBER", "STRING", "KW_true", "KW_false", "KW_empty", "ID", "LPAREN"]),
   ("CallTail", ["LPAREN", "ε"]),
   ("ArgListOpt", ["ε"]),
   ("ArgList", []),
   ("ArgListTail", ["COMMA", "ε"])]

def firstL3 : FirstMap :=
  [("KW_put", ["KW_put"]),
   ("KW_take", ["KW_take"]),
   ("KW_recipe", ["KW_recipe"]),
   ("KW_if", ["KW_if"]),
   ("KW_else", ["KW_else"]),
   ("KW_meanwhile", ["KW_meanwhile"]),
   ("KW_return", ["KW_return"]),
   ("KW_true", ["KW_true"]),
   ("KW_false", ["KW_false"]),
   ("KW_empty", ["KW_empty"]),
   ("ID", ["ID"]),
   ("NUMBER", ["NUMBER"]),
   ("STRING", ["STRING"]),
   ("LBRACE", ["LBRACE"]),
   ("RBRACE", ["RBRACE"]),
   ("LPAREN", ["LPAREN"]),
   ("RPAREN", ["RPAREN"]),
   ("SEMICOLON", ["SEMICOLON"]),
   ("COMMA", ["COMMA"]),
   ("OP_ASSIGN", ["OP_ASSIGN"]),
   ("OP_OR", ["OP_OR"]),
   ("OP_AND", ["OP_AND"]),
   ("OP_EQ", ["OP_EQ"]),
   ("OP_NE", ["OP_NE"]),
   ("OP_LT", ["OP_LT"]),
   ("OP_LE", ["OP_LE"]),
   ("OP_GT", ["OP_GT"]),
   ("OP_GE", ["OP_GE"]),
   ("OP_PLUS", ["OP_PLUS"]),
   ("OP_MINUS", ["OP_MINUS"]),
   ("OP_STAR", ["OP_STAR"]),
   ("OP_SLASH", ["OP_SLASH"]),
   ("OP_PERCENT", ["OP_PERCENT"]),
   ("OP_NOT", ["OP_NOT"]),
   ("$", ["$"]),
   ("ε", ["ε"]),
   ("Program", ["$"]),
   ("StmtList", ["ε", "KW_recipe", "KW_if", "KW_meanwhile", "KW_return", "LBRACE", "ID"]),
   ("Stmt", ["KW_recipe", "KW_if", "KW_meanwhile", "KW_return", "LBRACE", "ID", "KW_put", "KW_take"]),
   ("VarDecl", ["KW_put", "KW_take"]),
   ("VarKw", ["KW_put", "KW_take"]),
   ("VarInitOpt", ["OP_ASSIGN", "ε"]),
   ("RecipeDecl", ["KW_recipe"]),
   ("ParamListOpt", ["ε", "ID"]),
   ("ParamList", ["ID"]),
   ("ParamListTail", ["COMMA", "ε"]),
   ("IfStmt", ["KW_if"]),
   ("IfElseOpt", ["KW_else", "ε"]),
   ("WhileStmt", ["KW_meanwhile"]),
   ("ReturnStmt", ["KW_return"]),
   ("ExprOpt", ["ε"]),
   ("Block", ["LBRACE"]),
   ("AssignStmt", ["ID"]),
   ("Expr", []),
   ("OrExpr", []),
   ("OrExprTail", ["OP_OR", "ε"]),
   ("AndExpr", []),
   ("AndExprTail", ["OP_AND", "ε"]),
   ("EqualityExpr", []),
   ("EqualityExprTail", ["OP_EQ", "OP_NE", "ε"]),
   ("RelExpr", []),
   ("RelExprTail", ["OP_LT", "OP_LE", "OP_GT", "OP_GE", "ε"]),
   ("AddExpr", ["OP_NOT", "OP_PLUS", "OP_MINUS"]),
   ("AddExprTail", ["OP_PLUS", "OP_MINUS", "ε"]),
   ("MulExpr", ["OP_NOT", "OP_PLUS", "OP_MINUS", "NUMBER", "STRING", "KW_true", "KW_false", "KW_empty", "ID", "LPAREN"]),
   ("MulExprTail", ["OP_STAR", "OP_SLASH", "OP_PERCENT", "ε"]),
   ("UnaryExpr", ["OP_NOT", "OP_PLUS", "OP_MINUS", "NUMBER", "STRING", "KW_true", "KW_false", "KW_empty", "ID", "LPAREN"]),
   ("Primary", ["NUMBER", "STRING", "KW_true", "KW_false", "KW_empty", "ID", "LPAREN"]),
   ("CallTail", ["LPAREN", "ε"]),
   ("ArgListOpt", ["ε"]),
   ("ArgList", []),
   ("ArgListTail", ["COMMA", "ε"])]

def firstL4 : FirstMap :=
  [("KW_put", ["KW_put"]),
   ("KW_take", ["KW_take"]),
   ("KW_recipe", ["KW_recipe"]),
   ("KW_if", ["KW_if"]),
   ("KW_else", ["KW_else"]),
   ("KW_meanwhile", ["KW_meanwhile"]),
   ("KW_return", ["KW_return"]),
   ("KW_true", ["KW_true"]),
   ("KW_false", ["KW_false"]),
   ("KW_empty", ["KW_empty"]),
   ("ID", ["ID"]),
   ("NUMBER", ["NUMBER"]),
   ("STRING", ["STRING"]),
   ("LBRACE", ["LBRACE"]),
   ("RBRACE", ["RBRACE"]),
   ("LPAREN", ["LPAREN"]),
   ("RPAREN", ["RPAREN"]),
   ("SEMICOLON", ["SEMICOLON"]),
   ("COMMA", ["COMMA"]),
   ("OP_ASSIGN", ["OP_ASSIGN"]),
   ("OP_OR", ["OP_OR"]),
   ("OP_AND", ["OP_AND"]),
   ("OP_EQ", ["OP_EQ"]),
   ("OP_NE", ["OP_NE"]),
   ("OP_LT", ["OP_LT"]),
   ("OP_LE", ["OP_LE"]),
   ("OP_GT", ["OP_GT"]),
   ("OP_GE", ["OP_GE"]),
   ("OP_PLUS", ["OP_PLUS"]),
   ("OP_MINUS", ["OP_MINUS"]),
   ("OP_STAR", ["OP_STAR"]),
   ("OP_SLASH", ["OP_SLASH"]),
   ("OP_PERCENT", ["OP_PERCENT"]),
   ("OP_NOT", ["OP_NOT"]),
   ("$", ["$"]),
   ("ε", ["ε"]),
   ("Program", ["$", "KW_recipe", "KW_if", "KW_meanwhile", "KW_return", "LBRACE", "ID"]),
   ("StmtList", ["ε", "KW_recipe", "KW_if", "KW_meanwhile", "KW_return", "LBRACE", "ID", "KW_put", "KW_take"]),
   ("Stmt", ["KW_recipe", "KW_if", "KW_meanwhile", "KW_return", "LBRACE", "ID", "KW_put", "KW_take"]),
   ("VarDecl", ["KW_put", "KW_take"]),
   ("VarKw", ["KW_put", "KW_take"]),
   ("VarInitOpt", ["OP_ASSIGN", "ε"]),
   ("RecipeDecl", ["KW_recipe"]),
   ("ParamListOpt", ["ε", "ID"]),
   ("ParamList", ["ID"]),
   ("ParamListTail", ["COMMA", "ε"]),
   ("IfStmt", ["KW_if"]),
   ("IfElseOpt", ["KW_else", "ε"]),
   ("WhileStmt", ["KW_meanwhile"]),
   ("ReturnStmt", ["KW_return"]),
   ("ExprOpt", ["ε"]),
   ("Block", ["LBRACE"]),
   ("AssignStmt", ["ID"]),
   ("Expr", []),
   ("OrExpr", []),
   ("OrExprTail", ["OP_OR", "ε"]),
   ("AndExpr", []),
   ("AndExprTail", ["OP_AND", "ε"]),
   ("EqualityExpr", []),
   ("EqualityExprTail", ["OP_EQ", "OP_NE", "ε"]),
   ("RelExpr", ["OP_NOT", "OP_PLUS", "OP_MINUS"]),
   ("RelExprTail", ["OP_LT", "OP_LE", "OP_GT", "OP_GE", "ε"]),
   ("AddExpr", ["OP_NOT", "OP_PLUS", "OP_MINUS", "NUMBER", "STRING", "KW_true", "KW_false", "KW_empty", "ID", "LPAREN"]),
   ("AddExprTail", ["OP_PLUS", "OP_MINUS", "ε"]),
   ("MulExpr", ["OP_NOT", "OP_PLUS", "OP_MINUS", "NUMBER", "STRING", "KW_true", "KW_false", "KW_empty", "ID", "LPAREN"]),
   ("MulExprTail", ["OP_STAR", "OP_SLASH", "OP_PERCENT", "ε"]),
   ("UnaryExpr", ["OP_NOT", "OP_PLUS", "OP_MINUS", "NUMBER", "STRING", "KW_true", "KW_false", "KW_empty", "ID", "LPAREN"]),
   ("Primary", ["NUMBER", "STRING", "KW_true", "KW_false", "KW_empty", "ID", "LPAREN"]),
   ("CallTail", ["LPAREN", "ε"]),
   ("ArgListOpt", ["ε"]),
   ("ArgList", []),
   ("ArgListTail", ["COMMA", "ε"])]

def firstL5 : FirstMap :=
  [("KW_put", ["KW_put"]),
   ("KW_take", ["KW_take"]),
   ("KW_recipe", ["KW_recipe"]),
   ("KW_if", ["KW_if"]),
   ("KW_else", ["KW_else"]),
   ("KW_meanwhile", ["KW_meanwhile"]),
   ("KW_return", ["KW_return"]),
   ("KW_true", ["KW_true"]),
   ("KW_false", ["KW_false"]),
   ("KW_empty", ["KW_empty"]),
   ("ID", ["ID"]),
   ("NUMBER", ["NUMBER"]),
   ("STRING", ["STRING"]),
   ("LBRACE", ["LBRACE"]),
   ("RBRACE", ["RBRACE"]),
   ("LPAREN", ["LPAREN"]),
   ("RPAREN", ["RPAREN"]),
   ("SEMICOLON", ["SEMICOLON"]),
   ("COMMA", ["COMMA"]),
   ("OP_ASSIGN", ["OP_ASSIGN"]),
   ("OP_OR", ["OP_OR"]),
   ("OP_AND", ["OP_AND"]),
   ("OP_EQ", ["OP_EQ"]),
   ("OP_NE", ["OP_NE"]),
   ("OP_LT", ["OP_LT"]),
   ("OP_LE", ["OP_LE"]),
   ("OP_GT", ["OP_GT"]),
   ("OP_GE", ["OP_GE"]),
   ("OP_PLUS", ["OP_PLUS"]),
   ("OP_MINUS", ["OP_MINUS"]),
   ("OP_STAR", ["OP_STAR"]),
   ("OP_SLASH", ["OP_SLASH"]),
   ("OP_PERCENT", ["OP_PERCENT"]),
   ("OP_NOT", ["OP_NOT"]),
   ("$", ["$"]),
   ("ε", ["ε"]),
   ("Program", ["$", "KW_recipe", "KW_if", "KW_meanwhile", "KW_return", "LBRACE", "ID", "KW_put", "KW_take"]),
   ("StmtList", ["ε", "KW_recipe", "KW_if", "KW_meanwhile", "KW_return", "LBRACE", "ID", "KW_put", "KW_take"]),
   ("Stmt", ["KW_recipe", "KW_if", "KW_meanwhile", "KW_return", "LBRACE", "ID", "KW_put", "KW_take"]),
   ("VarDecl", ["KW_put", "KW_take"]),
   ("VarKw", ["KW_put", "KW_take"]),
   ("VarInitOpt", ["OP_ASSIGN", "ε"]),
   ("RecipeDecl", ["KW_recipe"]),
   ("ParamListOpt", ["ε", "ID"]),
   ("ParamList", ["ID"]),
   ("ParamListTail", ["COMMA", "ε"]),
   ("IfStmt", ["KW_if"]),
   ("IfElseOpt", ["KW_else", "ε"]),
   ("WhileStmt", ["KW_meanwhile"]),
   ("ReturnStmt", ["KW_return"]),
   ("ExprOpt", ["ε"]),
   ("Block", ["LBRACE"]),
   ("AssignStmt", ["ID"]),
   ("Expr", []),
   ("OrExpr", []),
   ("OrExprTail", ["OP_OR", "ε"]),
   ("AndExpr", []),
   ("AndExprTail", ["OP_AND", "ε"]),
   ("EqualityExpr", ["OP_NOT", "OP_PLUS", "OP_MINUS"]),
   ("EqualityExprTail", ["OP_EQ", "OP_NE", "ε"]),
   ("RelExpr", ["OP_NOT", "OP_PLUS", "OP_MINUS", "NUMBER", "STRING", "KW_true", "KW_false", "KW_empty", "ID", "LPAREN"]),
   ("RelExprTail", ["OP_LT", "OP_LE", "OP_GT", "OP_GE", "ε"]),
   ("AddExpr", ["OP_NOT", "OP_PLUS", "OP_MINUS", "NUMBER", "STRING", "KW_true", "KW_false", "KW_empty", "ID", "LPAREN"]),
   ("AddExprTail", ["OP_PLUS", "OP_MINUS", "ε"]),
   ("MulExpr", ["OP_NOT", "OP_PLUS", "OP_MINUS", "NUMBER", "STRING", "KW_true", "KW_false", "KW_empty", "ID", "LPAREN"]),
   ("MulExprTail", ["OP_STAR", "OP_SLASH", "OP_PERCENT", "ε"]),
   ("UnaryExpr", ["OP_NOT", "OP_PLUS", "OP_MINUS", "NUMBER", "STRING", "KW_true", "KW_false", "KW_empty", "ID", "LPAREN"]),
   ("Primary", ["NUMBER", "STRING", "KW_true", "KW_false", "KW_empty", "ID", "LPAREN"]),
   ("CallTail", ["LPAREN", "ε"]),
   ("ArgListOpt", ["ε"]),
   ("ArgList", []),
   ("ArgListTail", ["COMMA", "ε"])]

def firstL6 : FirstMap :=
  [("KW_put", ["KW_put"]),
   ("KW_take", ["KW_take"]),
   ("KW_recipe", ["KW_recipe"]),
   ("KW_if", ["KW_if"]),
   ("KW_else", ["KW_else"]),
   ("KW_meanwhile", ["KW_meanwhile"]),
   ("KW_return", ["KW_return"]),
   ("KW_true", ["KW_true"]),
   ("KW_false", ["KW_false"]),
   ("KW_empty", ["KW_empty"]),
   ("ID", ["ID"]),
   ("NUMBER", ["NUMBER"]),
   ("STRING", ["STRING"]),
   ("LBRACE", ["LBRACE"]),
   ("RBRACE", ["RBRACE"]),
   ("LPAREN", ["LPAREN"]),
   ("RPAREN", ["RPAREN"]),
   ("SEMICOLON", ["SEMICOLON"]),
   ("COMMA", ["COMMA"]),
   ("OP_ASSIGN", ["OP_ASSIGN"]),
   ("OP_OR", ["OP_OR"]),
   ("OP_AND", ["OP_AND"]),
   ("OP_EQ", ["OP_EQ"]),
   ("OP_NE", ["OP_NE"]),
   ("OP_LT", ["OP_LT"]),
   ("OP_LE", ["OP_LE"]),
   ("OP_GT", ["OP_GT"]),
   ("OP_GE", ["OP_GE"]),
   ("OP_PLUS", ["OP_PLUS"]),
   ("OP_MINUS", ["OP_MINUS"]),
   ("OP_STAR", ["OP_STAR"]),
   ("OP_SLASH", ["OP_SLASH"]),
   ("OP_PERCENT", ["OP_PERCENT"]),
   ("OP_NOT", ["OP_NOT"]),
   ("$", ["$"]),
   ("ε", ["ε"]),
   ("Program", ["$", "KW_recipe", "KW_if", "KW_meanwhile", "KW_return", "LBRACE", "ID", "KW_put", "KW_take"]),
   ("StmtList", ["ε", "KW_recipe", "KW_if", "KW_meanwhile", "KW_return", "LBRACE", "ID", "KW_put", "KW_take"]),
   ("Stmt", ["KW_recipe", "KW_if", "KW_meanwhile", "KW_return", "LBRACE", "ID", "KW_put", "KW_take"]),
   ("VarDecl", ["KW_put", "KW_take"]),
   ("VarKw", ["KW_put", "KW_take"]),
   ("VarInitOpt", ["OP_ASSIGN", "ε"]),
   ("RecipeDecl", ["KW_recipe"]),
   ("ParamListOpt", ["ε", "ID"]),
   ("ParamList", ["ID"]),
   ("ParamListTail", ["COMMA", "ε"]),
   ("IfStmt", ["KW_if"]),
   ("IfElseOpt", ["KW_else", "ε"]),
   ("WhileStmt", ["KW_meanwhile"]),
   ("ReturnStmt", ["KW_return"]),
   ("ExprOpt", ["ε"]),
   ("Block", ["LBRACE"]),
   ("AssignStmt", ["ID"]),
   ("Expr", []),
   ("OrExpr", []),
   ("OrExprTail", ["OP_OR", "ε"]),
   ("AndExpr", ["OP_NOT", "OP_PLUS", "OP_MINUS"]),
   ("AndExprTail", ["OP_AND", "ε"]),
   ("EqualityExpr", ["OP_NOT", "OP_PLUS", "OP_MINUS", "NUMBER", "STRING", "KW_true", "KW_false", "KW_empty", "ID", "LPAREN"]),
   ("EqualityExprTail", ["OP_EQ", "OP_NE", "ε"]),
   ("RelExpr", ["OP_NOT", "OP_PLUS", "OP_MINUS", "NUMBER", "STRING", "KW_true", "KW_false", "KW_empty", "ID", "LPAREN"]),
   ("RelExprTail", ["OP_LT", "OP_LE", "OP_GT", "OP_GE", "ε"]),
   ("AddExpr", ["OP_NOT", "OP_PLUS", "OP_MINUS", "NUMBER", "STRING", "KW_true", "KW_false", "KW_empty", "ID", "LPAREN"]),
   ("AddExprTail", ["OP_PLUS", "OP_MINUS", "ε"]),
   ("MulExpr", ["OP_NOT", "OP_PLUS", "OP_MINUS", "NUMBER", "STRING", "KW_true", "KW_false", "KW_empty", "ID", "LPAREN"]),
   ("MulExprTail", ["OP_STAR", "OP_SLASH", "OP_PERCENT", "ε"]),
   ("UnaryExpr", ["OP_NOT", "OP_PLUS", "OP_MINUS", "NUMBER", "STRING", "KW_true", "KW_false", "KW_empty", "ID", "LPAREN"]),
   ("Primary", ["NUMBER", "STRING", "KW_true", "KW_false", "KW_empty", "ID", "LPAREN"]),
   ("CallTail", ["LPAREN", "ε"]),
   ("ArgListOpt", ["ε"]),
   ("ArgList", []),
   ("ArgListTail", ["COMMA", "ε"])]

def firstL7 : FirstMap :=
  [("KW_put", ["KW_put"]),
   ("KW_take", ["KW_take"]),
   ("KW_recipe", ["KW_recipe"]),
   ("KW_if", ["KW_if"]),
   ("KW_else", ["KW_else"]),
   ("KW_meanwhile", ["KW_meanwhile"]),
   ("KW_return", ["KW_return"]),
   ("KW_true", ["KW_true"]),
   ("KW_false", ["KW_false"]),
   ("KW_empty", ["KW_empty"]),
   ("ID", ["ID"]),
   ("NUMBER", ["NUMBER"]),
   ("STRING", ["STRING"]),
   ("LBRACE", ["LBRACE"]),
   ("RBRACE", ["RBRACE"]),
   ("LPAREN", ["LPAREN"]),
   ("RPAREN", ["RPAREN"]),
   ("SEMICOLON", ["SEMICOLON"]),
   ("COMMA", ["COMMA"]),
   ("OP_ASSIGN", ["OP_ASSIGN"]),
   ("OP_OR", ["OP_OR"]),
   ("OP_AND", ["OP_AND"]),
   ("OP_EQ", ["OP_EQ"]),
   ("OP_NE", ["OP_NE"]),
   ("OP_LT", ["OP_LT"]),
   ("OP_LE", ["OP_LE"]),
   ("OP_GT", ["OP_GT"]),
   ("OP_GE", ["OP_GE"]),
   ("OP_PLUS", ["OP_PLUS"]),
   ("OP_MINUS", ["OP_MINUS"]),
   ("OP_STAR", ["OP_STAR"]),
   ("OP_SLASH", ["OP_SLASH"]),
   ("OP_PERCENT", ["OP_PERCENT"]),
   ("OP_NOT", ["OP_NOT"]),
   ("$", ["$"]),
   ("ε", ["ε"]),
   ("Program", ["$", "KW_recipe", "KW_if", "KW_meanwhile", "KW_return", "LBRACE", "ID", "KW_put", "KW_take"]),
   ("StmtList", ["ε", "KW_recipe", "KW_if", "KW_meanwhile", "KW_return", "LBRACE", "ID", "KW_put", "KW_take"]),
   ("Stmt", ["KW_recipe", "KW_if", "KW_meanwhile", "KW_return", "LBRACE", "ID", "KW_put", "KW_take"]),
   ("VarDecl", ["KW_put", "KW_take"]),
   ("VarKw", ["KW_put", "KW_take"]),
   ("VarInitOpt", ["OP_ASSIGN", "ε"]),
   ("RecipeDecl", ["KW_recipe"]),
   ("ParamListOpt", ["ε", "ID"]),
   ("ParamList", ["ID"]),
   ("ParamListTail", ["COMMA", "ε"]),
   ("IfStmt", ["KW_if"]),
   ("IfElseOpt", ["KW_else", "ε"]),
   ("WhileStmt", ["KW_meanwhile"]),
   ("ReturnStmt", ["KW_return"]),
   ("ExprOpt", ["ε"]),
   ("Block", ["LBRACE"]),
   ("AssignStmt", ["ID"]),
   ("Expr", []),
   ("OrExpr", ["OP_NOT", "OP_PLUS", "OP_MINUS"]),
   ("OrExprTail", ["OP_OR", "ε"]),
   ("AndExpr", ["OP_NOT", "OP_PLUS", "OP_MINUS", "NUMBER", "STRING", "KW_true", "KW_false", "KW_empty", "ID", "LPAREN"]),
   ("AndExprTail", ["OP_AND", "ε"]),
   ("EqualityExpr", ["OP_NOT", "OP_PLUS", "OP_MINUS", "NUMBER", "STRING", "KW_true", "KW_false", "KW_empty", "ID", "LPAREN"]),
   ("EqualityExprTail", ["OP_EQ", "OP_NE", "ε"]),
   ("RelExpr", ["OP_NOT", "OP_PLUS", "OP_MINUS", "NUMBER", "STRING", "KW_true", "KW_false", "KW_empty", "ID", "LPAREN"]),
   ("RelExprTail", ["OP_LT", "OP_LE", "OP_GT", "OP_GE", "ε"]),
   ("AddExpr", ["OP_NOT", "OP_PLUS", "OP_MINUS", "NUMBER", "STRING", "KW_true", "KW_false", "KW_empty", "ID", "LPAREN"]),
   ("AddExprTail", ["OP_PLUS", "OP_MINUS", "ε"]),
   ("MulExpr", ["OP_NOT", "OP_PLUS", "OP_MINUS", "NUMBER", "STRING", "KW_true", "KW_false", "KW_empty", "ID", "LPAREN"]),
   ("MulExprTail", ["OP_STAR", "OP_SLASH", "OP_PERCENT", "ε"]),
   ("UnaryExpr", ["OP_NOT", "OP_PLUS", "OP_MINUS", "NUMBER", "STRING", "KW_true", "KW_false", "KW_empty", "ID", "LPAREN"]),
   ("Primary", ["NUMBER", "STRING", "KW_true", "KW_false", "KW_empty", "ID", "LPAREN"]),
   ("CallTail", ["LPAREN", "ε"]),
   ("ArgListOpt", ["ε"]),
   ("ArgList", []),
   ("ArgListTail", ["COMMA", "ε"])]

def firstL8 : FirstMap :=
  [("KW_put", ["KW_put"]),
   ("KW_take", ["KW_take"]),
   ("KW_recipe", ["KW_recipe"]),
   ("KW_if", ["KW_if"]),
   ("KW_else", ["KW_else"]),
   ("KW_meanwhile", ["KW_meanwhile"]),
   ("KW_return", ["KW_return"]),
   ("KW_true", ["KW_true"]),
   ("KW_false", ["KW_false"]),
   ("KW_empty", ["KW_empty"]),
   ("ID", ["ID"]),
   ("NUMBER", ["NUMBER"]),
   ("STRING", ["STRING"]),
   ("LBRACE", ["LBRACE"]),
   ("RBRACE", ["RBRACE"]),
   ("LPAREN", ["LPAREN"]),
   ("RPAREN", ["RPAREN"]),
   ("SEMICOLON", ["SEMICOLON"]),
   ("COMMA", ["COMMA"]),
   ("OP_ASSIGN", ["OP_ASSIGN"]),
   ("OP_OR", ["OP_OR"]),
   ("OP_AND", ["OP_AND"]),
   ("OP_EQ", ["OP_EQ"]),
   ("OP_NE", ["OP_NE"]),
   ("OP_LT", ["OP_LT"]),
   ("OP_LE", ["OP_LE"]),
   ("OP_GT", ["OP_GT"]),
   ("OP_GE", ["OP_GE"]),
   ("OP_PLUS", ["OP_PLUS"]),
   ("OP_MINUS", ["OP_MINUS"]),
   ("OP_STAR", ["OP_STAR"]),
   ("OP_SLASH", ["OP_SLASH"]),
   ("OP_PERCENT", ["OP_PERCENT"]),
   ("OP_NOT", ["OP_NOT"]),
   ("$", ["$"]),
   ("ε", ["ε"]),
   ("Program", ["$", "KW_recipe", "KW_if", "KW_meanwhile", "KW_return", "LBRACE", "ID", "KW_put", "KW_take"]),
   ("StmtList", ["ε", "KW_recipe", "KW_if", "KW_meanwhile", "KW_return", "LBRACE", "ID", "KW_put", "KW_take"]),
   ("Stmt", ["KW_recipe", "KW_if", "KW_meanwhile", "KW_return", "LBRACE", "ID", "KW_put", "KW_take"]),
   ("VarDecl", ["KW_put", "KW_take"]),
   ("VarKw", ["KW_put", "KW_take"]),
   ("VarInitOpt", ["OP_ASSIGN", "ε"]),
   ("RecipeDecl", ["KW_recipe"]),
   ("ParamListOpt", ["ε", "ID"]),
   ("ParamList", ["ID"]),
   ("ParamListTail", ["COMMA", "ε"]),
   ("IfStmt", ["KW_if"]),
   ("IfElseOpt", ["KW_else", "ε"]),
   ("WhileStmt", ["KW_meanwhile"]),
   ("ReturnStmt", ["KW_return"]),
   ("ExprOpt", ["ε"]),
   ("Block", ["LBRACE"]),
   ("AssignStmt", ["ID"]),
   ("Expr", ["OP_NOT", "OP_PLUS", "OP_MINUS"]),
   ("OrExpr", ["OP_NOT", "OP_PLUS", "OP_MINUS", "NUMBER", "STRING", "KW_true", "KW_false", "KW_empty", "ID", "LPAREN"]),
   ("OrExprTail", ["OP_OR", "ε"]),
   ("AndExpr", ["OP_NOT", "OP_PLUS", "OP_MINUS", "NUMBER", "STRING", "KW_true", "KW_false", "KW_empty", "ID", "LPAREN"]),
   ("AndExprTail", ["OP_AND", "ε"]),
   ("EqualityExpr", ["OP_NOT", "OP_PLUS", "OP_MINUS", "NUMBER", "STRING", "KW_true", "KW_false", "KW_empty", "ID", "LPAREN"]),
   ("EqualityExprTail", ["OP_EQ", "OP_NE", "ε"]),
   ("RelExpr", ["OP_NOT", "OP_PLUS", "OP_MINUS", "NUMBER", "STRING", "KW_true", "KW_false", "KW_empty", "ID", "LPAREN"]),
   ("RelExprTail", ["OP_LT", "OP_LE", "OP_GT", "OP_GE", "ε"]),
   ("AddExpr", ["OP_NOT", "OP_PLUS", "OP_MINUS", "NUMBER", "STRING", "KW_true", "KW_false", "KW_empty", "ID", "LPAREN"]),
   ("AddExprTail", ["OP_PLUS", "OP_MINUS", "ε"]),
   ("MulExpr", ["OP_NOT", "OP_PLUS", "OP_MINUS", "NUMBER", "STRING", "KW_true", "KW_false", "KW_empty", "ID", "LPAREN"]),
   ("MulExprTail", ["OP_STAR", "OP_SLASH", "OP_PERCENT", "ε"]),
   ("UnaryExpr", ["OP_NOT", "OP_PLUS", "OP_MINUS", "NUMBER", "STRING", "KW_true", "KW_false", "KW_empty", "ID", "LPAREN"]),
   ("Primary", ["NUMBER", "STRING", "KW_true", "KW_false", "KW_empty", "ID", "LPAREN"]),
   ("CallTail", ["LPAREN", "ε"]),
   ("ArgListOpt", ["ε"]),
   ("ArgList", ["OP_NOT", "OP_PLUS", "OP_MINUS"]),
   ("ArgListTail", ["COMMA", "ε"])]

def firstL9 : FirstMap :=
  [("KW_put", ["KW_put"]),
   ("KW_take", ["KW_take"]),
   ("KW_recipe", ["KW_recipe"]),
   ("KW_if", ["KW_if"]),
   ("KW_else", ["KW_else"]),
   ("KW_meanwhile", ["KW_meanwhile"]),
   ("KW_return", ["KW_return"]),
   ("KW_true", ["KW_true"]),
   ("KW_false", ["KW_false"]),
   ("KW_empty", ["KW_empty"]),
   ("ID", ["ID"]),
   ("NUMBER", ["NUMBER"]),
   ("STRING", ["STRING"]),
   ("LBRACE", ["LBRACE"]),
   ("RBRACE", ["RBRACE"]),
   ("LPAREN", ["LPAREN"]),
   ("RPAREN", ["RPAREN"]),
   ("SEMICOLON", ["SEMICOLON"]),
   ("COMMA", ["COMMA"]),
   ("OP_ASSIGN", ["OP_ASSIGN"]),
   ("OP_OR", ["OP_OR"]),
   ("OP_AND", ["OP_AND"]),
   ("OP_EQ", ["OP_EQ"]),
   ("OP_NE", ["OP_NE"]),
   ("OP_LT", ["OP_LT"]),
   ("OP_LE", ["OP_LE"]),
   ("OP_GT", ["OP_GT"]),
   ("OP_GE", ["OP_GE"]),
   ("OP_PLUS", ["OP_PLUS"]),
   ("OP_MINUS", ["OP_MINUS"]),
   ("OP_STAR", ["OP_STAR"]),
   ("OP_SLASH", ["OP_SLASH"]),
   ("OP_PERCENT", ["OP_PERCENT"]),
   ("OP_NOT", ["OP_NOT"]),
   ("$", ["$"]),
   ("ε", ["ε"]),
   ("Program", ["$", "KW_recipe", "KW_if", "KW_meanwhile", "KW_return", "LBRACE", "ID", "KW_put", "KW_take"]),
   ("StmtList", ["ε", "KW_recipe", "KW_if", "KW_meanwhile", "KW_return", "LBRACE", "ID", "KW_put", "KW_take"]),
   ("Stmt", ["KW_recipe", "KW_if", "KW_meanwhile", "KW_return", "LBRACE", "ID", "KW_put", "KW_take"]),
   ("VarDecl", ["KW_put", "KW_take"]),
   ("VarKw", ["KW_put", "KW_take"]),
   ("VarInitOpt", ["OP_ASSIGN", "ε"]),
   ("RecipeDecl", ["KW_recipe"]),
   ("ParamListOpt", ["ε", "ID"]),
   ("ParamList", ["ID"]),
   ("ParamListTail", ["COMMA", "ε"]),
   ("IfStmt", ["KW_if"]),
   ("IfElseOpt", ["KW_else", "ε"]),
   ("WhileStmt", ["KW_meanwhile"]),
   ("ReturnStmt", ["KW_return"]),
   ("ExprOpt", ["ε", "OP_NOT", "OP_PLUS", "OP_MINUS"]),
   ("Block", ["LBRACE"]),
   ("AssignStmt", ["ID"]),
   ("Expr", ["OP_NOT", "OP_PLUS", "OP_MINUS", "NUMBER", "STRING", "KW_true", "KW_false", "KW_empty", "ID", "LPAREN"]),
   ("OrExpr", ["OP_NOT", "OP_PLUS", "OP_MINUS", "NUMBER", "STRING", "KW_true", "KW_false", "KW_empty", "ID", "LPAREN"]),
   ("OrExprTail", ["OP_OR", "ε"]),
   ("AndExpr", ["OP_NOT", "OP_PLUS", "OP_MINUS", "NUMBER", "STRING", "KW_true", "KW_false", "KW_empty", "ID", "LPAREN"]),
   ("AndExprTail", ["OP_AND", "ε"]),
   ("EqualityExpr", ["OP_NOT", "OP_PLUS", "OP_MINUS", "NUMBER", "STRING", "KW_true", "KW_false", "KW_empty", "ID", "LPAREN"]),
   ("EqualityExprTail", ["OP_EQ", "OP_NE", "ε"]),
   ("RelExpr", ["OP_NOT", "OP_PLUS", "OP_MINUS", "NUMBER", "STRING", "KW_true", "KW_false", "KW_empty", "ID", "LPAREN"]),
   ("RelExprTail", ["OP_LT", "OP_LE", "OP_GT", "OP_GE", "ε"]),
   ("AddExpr", ["OP_NOT", "OP_PLUS", "OP_MINUS", "NUMBER", "STRING", "KW_true", "KW_false", "KW_empty", "ID", "LPAREN"]),
   ("AddExprTail", ["OP_PLUS", "OP_MINUS", "ε"]),
   ("MulExpr", ["OP_NOT", "OP_PLUS", "OP_MINUS", "NUMBER", "STRING", "KW_true", "KW_false", "KW_empty", "ID", "LPAREN"]),
   ("MulExprTail", ["OP_STAR", "OP_SLASH", "OP_PERCENT", "ε"]),
   ("UnaryExpr", ["OP_NOT", "OP_PLUS", "OP_MINUS", "NUMBER", "STRING", "KW_true", "KW_false", "KW_empty", "ID", "LPAREN"]),
   ("Primary", ["NUMBER", "STRING", "KW_true", "KW_false", "KW_empty", "ID", "LPAREN"]),
   ("CallTail", ["LPAREN", "ε"]),
   ("ArgListOpt", ["ε", "OP_NOT", "OP_PLUS", "OP_MINUS"]),
   ("ArgList", ["OP_NOT", "OP_PLUS", "OP_MINUS", "NUMBER", "STRING", "KW_true", "KW_false", "KW_empty", "ID", "LPAREN"]),
   ("ArgListTail", ["COMMA", "ε"])]

def firstL10 : FirstMap :=
  [("KW_put", ["KW_put"]),
   ("KW_take", ["KW_take"]),
   ("KW_recipe", ["KW_recipe"]),
   ("KW_if", ["KW_if"]),
   ("KW_else", ["KW_else"]),
   ("KW_meanwhile", ["KW_meanwhile"]),
   ("KW_return", ["KW_return"]),
   ("KW_true", ["KW_true"]),
   ("KW_false", ["KW_false"]),
   ("KW_empty", ["KW_empty"]),
   ("ID", ["ID"]),
   ("NUMBER", ["NUMBER"]),
   ("STRING", ["STRING"]),
   ("LBRACE", ["LBRACE"]),
   ("RBRACE", ["RBRACE"]),
   ("LPAREN", ["LPAREN"]),
   ("RPAREN", ["RPAREN"]),
   ("SEMICOLON", ["SEMICOLON"]),
   ("COMMA", ["COMMA"]),
   ("OP_ASSIGN", ["OP_ASSIGN"]),
   ("OP_OR", ["OP_OR"]),
   ("OP_AND", ["OP_AND"]),
   ("OP_EQ", ["OP_EQ"]),
   ("OP_NE", ["OP_NE"]),
   ("OP_LT", ["OP_LT"]),
   ("OP_LE", ["OP_LE"]),
   ("OP_GT", ["OP_GT"]),
   ("OP_GE", ["OP_GE"]),
   ("OP_PLUS", ["OP_PLUS"]),
   ("OP_MINUS", ["OP_MINUS"]),
   ("OP_STAR", ["OP_STAR"]),
   ("OP_SLASH", ["OP_SLASH"]),
   ("OP_PERCENT", ["OP_PERCENT"]),
   ("OP_NOT", ["OP_NOT"]),
   ("$", ["$"]),
   ("ε", ["ε"]),
   ("Program", ["$", "KW_recipe", "KW_if", "KW_meanwhile", "KW_return", "LBRACE", "ID", "KW_put", "KW_take"]),
   ("StmtList", ["ε", "KW_recipe", "KW_if", "KW_meanwhile", "KW_return", "LBRACE", "ID", "KW_put", "KW_take"]),
   ("Stmt", ["KW_recipe", "KW_if", "KW_meanwhile", "KW_return", "LBRACE", "ID", "KW_put", "KW_take"]),
   ("VarDecl", ["KW_put", "KW_take"]),
   ("VarKw", ["KW_put", "KW_take"]),
   ("VarInitOpt", ["OP_ASSIGN", "ε"]),
   ("RecipeDecl", ["KW_recipe"]),
   ("ParamListOpt", ["ε", "ID"]),
   ("ParamList", ["ID"]),
   ("ParamListTail", ["COMMA", "ε"]),
   ("IfStmt", ["KW_if"]),
   ("IfElseOpt", ["KW_else", "ε"]),
   ("WhileStmt", ["KW_meanwhile"]),
   ("ReturnStmt", ["KW_return"]),
   ("ExprOpt", ["ε", "OP_NOT", "OP_PLUS", "OP_MINUS", "NUMBER", "STRING", "KW_true", "KW_false", "KW_empty", "ID", "LPAREN"]),
   ("Block", ["LBRACE"]),
   ("AssignStmt", ["ID"]),
   ("Expr", ["OP_NOT", "OP_PLUS", "OP_MINUS", "NUMBER", "STRING", "KW_true", "KW_false", "KW_empty", "ID", "LPAREN"]),
   ("OrExpr", ["OP_NOT", "OP_PLUS", "OP_MINUS", "NUMBER", "STRING", "KW_true", "KW_false", "KW_empty", "ID", "LPAREN"]),
   ("OrExprTail", ["OP_OR", "ε"]),
   ("AndExpr", ["OP_NOT", "OP_PLUS", "OP_MINUS", "NUMBER", "STRING", "KW_true", "KW_false", "KW_empty", "ID", "LPAREN"]),
   ("AndExprTail", ["OP_AND", "ε"]),
   ("EqualityExpr", ["OP_NOT", "OP_PLUS", "OP_MINUS", "NUMBER", "STRING", "KW_true", "KW_false", "KW_empty", "ID", "LPAREN"]),
   ("EqualityExprTail", ["OP_EQ", "OP_NE", "ε"]),
   ("RelExpr", ["OP_NOT", "OP_PLUS", "OP_MINUS", "NUMBER", "STRING", "KW_true", "KW_false", "KW_empty", "ID", "LPAREN"]),
   ("RelExprTail", ["OP_LT", "OP_LE", "OP_GT", "OP_GE", "ε"]),
   ("AddExpr", ["OP_NOT", "OP_PLUS", "OP_MINUS", "NUMBER", "STRING", "KW_true", "KW_false", "KW_empty", "ID", "LPAREN"]),
   ("AddExprTail", ["OP_PLUS", "OP_MINUS", "ε"]),
   ("MulExpr", ["OP_NOT", "OP_PLUS", "OP_MINUS", "NUMBER", "STRING", "KW_true", "KW_false", "KW_empty", "ID", "LPAREN"]),
   ("MulExprTail", ["OP_STAR", "OP_SLASH", "OP_PERCENT", "ε"]),
   ("UnaryExpr", ["OP_NOT", "OP_PLUS", "OP_MINUS", "NUMBER", "STRING", "KW_true", "KW_false", "KW_empty", "ID", "LPAREN"]),
   ("Primary", ["NUMBER", "STRING", "KW_true", "KW_false", "KW_empty", "ID", "LPAREN"]),
   ("CallTail", ["LPAREN", "ε"]),
   ("ArgListOpt", ["ε", "OP_NOT", "OP_PLUS", "OP_MINUS", "NUMBER", "STRING", "KW_true", "KW_false", "KW_empty", "ID", "LPAREN"]),
   ("ArgList", ["OP_NOT", "OP_PLUS", "OP_MINUS", "NUMBER", "STRING", "KW_true", "KW_false", "KW_empty", "ID", "LPAREN"]),
   ("ArgListTail", ["COMMA", "ε"])]

def followL0 : FirstMap :=
  [("Program", ["$"]),
   ("StmtList", []),
   ("Stmt", []),
   ("VarDecl", []),
   ("VarKw", []),
   ("VarInitOpt", []),
   ("RecipeDecl", []),
   ("ParamListOpt", []),
   ("ParamList", []),
   ("ParamListTail", []),
   ("IfStmt", []),
   ("IfElseOpt", []),
   ("WhileStmt", []),
   ("ReturnStmt", []),
   ("ExprOpt", []),
   ("Block", []),
   ("AssignStmt", []),
   ("Expr", []),
   ("OrExpr", []),
   ("OrExprTail", []),
   ("AndExpr", []),
   ("AndExprTail", []),
   ("EqualityExpr", []),
   ("EqualityExprTail", []),
   ("RelExpr", []),
   ("RelExprTail", []),
   ("AddExpr", []),
   ("AddExprTail", []),
   ("MulExpr", []),
   ("MulExprTail", []),
   ("UnaryExpr", []),
   ("Primary", []),
   ("CallTail", []),
   ("ArgListOpt", []),
   ("ArgList", []),
   ("ArgListTail", [])]

def followL1 : FirstMap :=
  [("Program", ["$"]),
   ("StmtList", ["$", "RBRACE"]),
   ("Stmt", ["KW_recipe", "KW_if", "KW_meanwhile", "KW_return", "LBRACE", "ID", "KW_put", "KW_take", "$", "KW_else"]),
   ("VarDecl", ["KW_recipe", "KW_if", "KW_meanwhile", "KW_return", "LBRACE", "ID", "KW_put", "KW_take", "$"]),
   ("VarKw", ["ID"]),
   ("VarInitOpt", ["SEMICOLON"]),
   ("RecipeDecl", ["KW_recipe", "KW_if", "KW_meanwhile", "KW_return", "LBRACE", "ID", "KW_put", "KW_take", "$"]),
   ("ParamListOpt", ["RPAREN"]),
   ("ParamList", ["RPAREN"]),
   ("ParamListTail", ["RPAREN"]),
   ("IfStmt", ["KW_recipe", "KW_if", "KW_meanwhile", "KW_return", "LBRACE", "ID", "KW_put", "KW_take", "$"]),
   ("IfElseOpt", ["KW_recipe", "KW_if", "KW_meanwhile", "KW_return", "LBRACE", "ID", "KW_put", "KW_take", "$"]),
   ("WhileStmt", ["KW_recipe", "KW_if", "KW_meanwhile", "KW_return", "LBRACE", "ID", "KW_put", "KW_take", "$"]),
   ("ReturnStmt", ["KW_recipe", "KW_if", "KW_meanwhile", "KW_return", "LBRACE", "ID", "KW_put", "KW_take", "$"]),
   ("ExprOpt", ["SEMICOLON"]),
   ("Block", ["KW_recipe", "KW_if", "KW_meanwhile", "KW_return", "LBRACE", "ID", "KW_put", "KW_take", "$"]),
   ("AssignStmt", ["KW_recipe", "KW_if", "KW_meanwhile", "KW_return", "LBRACE", "ID", "KW_put", "KW_take", "$"]),
   ("Expr", ["SEMICOLON", "RPAREN", "COMMA"]),
   ("OrExpr", ["SEMICOLON", "RPAREN"]),
   ("OrExprTail", ["SEMICOLON", "RPAREN"]),
   ("AndExpr", ["OP_OR", "SEMICOLON", "RPAREN"]),
   ("AndExprTail", ["OP_OR", "SEMICOLON", "RPAREN"]),
   ("EqualityExpr", ["OP_AND", "OP_OR", "SEMICOLON", "RPAREN"]),
   ("EqualityExprTail", ["OP_AND", "OP_OR", "SEMICOLON", "RPAREN"]),
   ("RelExpr", ["OP_EQ", "OP_NE", "OP_AND", "OP_OR", "SEMICOLON", "RPAREN"]),
   ("RelExprTail", ["OP_EQ", "OP_NE", "OP_AND", "OP_OR", "SEMICOLON", "RPAREN"]),
   ("AddExpr", ["OP_LT", "OP_LE", "OP_GT", "OP_GE", "OP_EQ", "OP_NE", "OP_AND", "OP_OR", "SEMICOLON", "RPAREN"]),
   ("AddExprTail", ["OP_LT", "OP_LE", "OP_GT", "OP_GE", "OP_EQ", "OP_NE", "OP_AND", "OP_OR", "SEMICOLON", "RPAREN"]),
   ("MulExpr", ["OP_PLUS", "OP_MINUS", "OP_LT", "OP_LE", "OP_GT", "OP_GE", "OP_EQ", "OP_NE", "OP_AND", "OP_OR", "SEMICOLON", "RPAREN"]),
   ("MulExprTail", ["OP_PLUS", "OP_MINUS", "OP_LT", "OP_LE", "OP_GT", "OP_GE", "OP_EQ", "OP_NE", "OP_AND", "OP_OR", "SEMICOLON", "RPAREN"]),
   ("UnaryExpr", ["OP_STAR", "OP_SLASH", "OP_PERCENT", "OP_PLUS", "OP_MINUS", "OP_LT", "OP_LE", "OP_GT", "OP_GE", "OP_EQ", "OP_NE", "OP_AND", "OP_OR", "SEMICOLON", "RPAREN"]),
   ("Primary", ["OP_STAR", "OP_SLASH", "OP_PERCENT", "OP_PLUS", "OP_MINUS", "OP_LT", "OP_LE", "OP_GT", "OP_GE", "OP_EQ", "OP_NE", "OP_AND", "OP_OR", "SEMICOLON", "RPAREN"]),
   ("CallTail", ["OP_STAR", "OP_SLASH", "OP_PERCENT", "OP_PLUS", "OP_MINUS", "OP_LT", "OP_LE", "OP_GT", "OP_GE", "OP_EQ", "OP_NE", "OP_AND", "OP_OR", "SEMICOLON", "RPAREN"]),
   ("ArgListOpt", ["RPAREN"]),
   ("ArgList", ["RPAREN"]),
   ("ArgListTail", ["RPAREN"])]

def followL2 : FirstMap :=
  [("Program", ["$"]),
   ("StmtList", ["$", "RBRACE"]),
   ("Stmt", ["KW_recipe", "KW_if", "KW_meanwhile", "KW_return", "LBRACE", "ID", "KW_put", "KW_take", "$", "KW_else", "RBRACE"]),
   ("VarDecl", ["KW_recipe", "KW_if", "KW_meanwhile", "KW_return", "LBRACE", "ID", "KW_put", "KW_take", "$", "KW_else", "RBRACE"]),
   ("VarKw", ["ID"]),
   ("VarInitOpt", ["SEMICOLON"]),
   ("RecipeDecl", ["KW_recipe", "KW_if", "KW_meanwhile", "KW_return", "LBRACE", "ID", "KW_put", "KW_take", "$", "KW_else", "RBRACE"]),
   ("ParamListOpt", ["RPAREN"]),
   ("ParamList", ["RPAREN"]),
   ("ParamListTail", ["RPAREN"]),
   ("IfStmt", ["KW_recipe", "KW_if", "KW_meanwhile", "KW_return", "LBRACE", "ID", "KW_put", "KW_take", "$", "KW_else", "RBRACE"]),
   ("IfElseOpt", ["KW_recipe", "KW_if", "KW_meanwhile", "KW_return", "LBRACE", "ID", "KW_put", "KW_take", "$", "KW_else", "RBRACE"]),
   ("WhileStmt", ["KW_recipe", "KW_if", "KW_meanwhile", "KW_return", "LBRACE", "ID", "KW_put", "KW_take", "$", "KW_else", "RBRACE"]),
   ("ReturnStmt", ["KW_recipe", "KW_if", "KW_meanwhile", "KW_return", "LBRACE", "ID", "KW_put", "KW_take", "$", "KW_else", "RBRACE"]),
   ("ExprOpt", ["SEMICOLON"]),
   ("Block", ["KW_recipe", "KW_if", "KW_meanwhile", "KW_return", "LBRACE", "ID", "KW_put", "KW_take", "$", "KW_else", "RBRACE"]),
   ("AssignStmt", ["KW_recipe", "KW_if", "KW_meanwhile", "KW_return", "LBRACE", "ID", "KW_put", "KW_take", "$", "KW_else", "RBRACE"]),
   ("Expr", ["SEMICOLON", "RPAREN", "COMMA"]),
   ("OrExpr", ["SEMICOLON", "RPAREN", "COMMA"]),
   ("OrExprTail", ["SEMICOLON", "RPAREN", "COMMA"]),
   ("AndExpr", ["OP_OR", "SEMICOLON", "RPAREN", "COMMA"]),
   ("AndExprTail", ["OP_OR", "SEMICOLON", "RPAREN", "COMMA"]),
   ("EqualityExpr", ["OP_AND", "OP_OR", "SEMICOLON", "RPAREN", "COMMA"]),
   ("EqualityExprTail", ["OP_AND", "OP_OR", "SEMICOLON", "RPAREN", "COMMA"]),
   ("RelExpr", ["OP_EQ", "OP_NE", "OP_AND", "OP_OR", "SEMICOLON", "RPAREN", "COMMA"]),
   ("RelExprTail", ["OP_EQ", "OP_NE", "OP_AND", "OP_OR", "SEMICOLON", "RPAREN", "COMMA"]),
   ("AddExpr", ["OP_LT", "OP_LE", "OP_GT", "OP_GE", "OP_EQ", "OP_NE", "OP_AND", "OP_OR", "SEMICOLON", "RPAREN", "COMMA"]),
   ("AddExprTail", ["OP_LT", "OP_LE", "OP_GT", "OP_GE", "OP_EQ", "OP_NE", "OP_AND", "OP_OR", "SEMICOLON", "RPAREN", "COMMA"]),
   ("MulExpr", ["OP_PLUS", "OP_MINUS", "OP_LT", "OP_LE", "OP_GT", "OP_GE", "OP_EQ", "OP_NE", "OP_AND", "OP_OR", "SEMICOLON", "RPAREN", "COMMA"]),
   ("MulExprTail", ["OP_PLUS", "OP_MINUS", "OP_LT", "OP_LE", "OP_GT", "OP_GE", "OP_EQ", "OP_NE", "OP_AND", "OP_OR", "SEMICOLON", "RPAREN", "COMMA"]),
   ("UnaryExpr", ["OP_STAR", "OP_SLASH", "OP_PERCENT", "OP_PLUS", "OP_MINUS", "OP_LT", "OP_LE", "OP_GT", "OP_GE", "OP_EQ", "OP_NE", "OP_AND", "OP_OR", "SEMICOLON", "RPAREN", "COMMA"]),
   ("Primary", ["OP_STAR", "OP_SLASH", "OP_PERCENT", "OP_PLUS", "OP_MINUS", "OP_LT", "OP_LE", "OP_GT", "OP_GE", "OP_EQ", "OP_NE", "OP_AND", "OP_OR", "SEMICOLON", "RPAREN", "COMMA"]),
   ("CallTail", ["OP_STAR", "OP_SLASH", "OP_PERCENT", "OP_PLUS", "OP_MINUS", "OP_LT", "OP_LE", "OP_GT", "OP_GE", "OP_EQ", "OP_NE", "OP_AND", "OP_OR", "SEMICOLON", "RPAREN", "COMMA"]),
   ("ArgListOpt", ["RPAREN"]),
   ("ArgList", ["RPAREN"]),
   ("ArgListTail", ["RPAREN"])]

def tableLit : ParseTable :=
  [("Program", [("KW_recipe", ⟨"Program", ["StmtList", "$"]⟩),
      ("KW_if", ⟨"Program", ["StmtList", "$"]⟩),
      ("KW_meanwhile", ⟨"Program", ["StmtList", "$"]⟩),
      ("KW_return", ⟨"Program", ["StmtList", "$"]⟩),
      ("LBRACE", ⟨"Program", ["StmtList", "$"]⟩),
      ("ID", ⟨"Program", ["StmtList", "$"]⟩),
      ("KW_put", ⟨"Program", ["StmtList", "$"]⟩),
      ("KW_take", ⟨"Program", ["StmtList", "$"]⟩),
      ("$", ⟨"Program", ["StmtList", "$"]⟩)]),
   ("StmtList", [("KW_recipe", ⟨"StmtList", ["Stmt", "StmtList"]⟩),
      ("KW_if", ⟨"StmtList", ["Stmt", "StmtList"]⟩),
      ("KW_meanwhile", ⟨"StmtList", ["Stmt", "StmtList"]⟩),
      ("KW_return", ⟨"StmtList", ["Stmt", "StmtList"]⟩),
      ("LBRACE", ⟨"StmtList", ["Stmt", "StmtList"]⟩),
      ("ID", ⟨"StmtList", ["Stmt", "StmtList"]⟩),
      ("KW_put", ⟨"StmtList", ["Stmt", "StmtList"]⟩),
      ("KW_take", ⟨"StmtList", ["Stmt", "StmtList"]⟩),
      ("$", ⟨"StmtList", ["ε"]⟩),
      ("RBRACE", ⟨"StmtList", ["ε"]⟩)]),
   ("Stmt", [("KW_put", ⟨"Stmt", ["VarDecl"]⟩),
      ("KW_take", ⟨"Stmt", ["VarDecl"]⟩),
      ("KW_recipe", ⟨"Stmt", ["RecipeDecl"]⟩),
      ("KW_if", ⟨"Stmt", ["IfStmt"]⟩),
      ("KW_meanwhile", ⟨"Stmt", ["WhileStmt"]⟩),
      ("KW_return", ⟨"Stmt", ["ReturnStmt"]⟩),
      ("LBRACE", ⟨"Stmt", ["Block"]⟩),
      ("ID", ⟨"Stmt", ["AssignStmt"]⟩)]),
   ("VarDecl", [("KW_put", ⟨"VarDecl", ["VarKw", "ID", "VarInitOpt", "SEMICOLON"]⟩),
      ("KW_take", ⟨"VarDecl", ["VarKw", "ID", "VarInitOpt", "SEMICOLON"]⟩)]),
   ("VarKw", [("KW_put", ⟨"VarKw", ["KW_put"]⟩),
      ("KW_take", ⟨"VarKw", ["KW_take"]⟩)]),
   ("VarInitOpt", [("OP_ASSIGN", ⟨"VarInitOpt", ["OP_ASSIGN", "Expr"]⟩),
      ("SEMICOLON", ⟨"VarInitOpt", ["ε"]⟩)]),
   ("RecipeDecl", [("KW_recipe", ⟨"RecipeDecl", ["KW_recipe", "ID", "LPAREN", "ParamListOpt", "RPAREN", "Block"]⟩)]),
   ("ParamListOpt", [("ID", ⟨"ParamListOpt", ["ParamList"]⟩),
      ("RPAREN", ⟨"ParamListOpt", ["ε"]⟩)]),
   ("ParamList", [("ID", ⟨"ParamList", ["ID", "ParamListTail"]⟩)]),
   ("ParamListTail", [("COMMA", ⟨"ParamListTail", ["COMMA", "ID", "ParamListTail"]⟩),
      ("RPAREN", ⟨"ParamListTail", ["ε"]⟩)]),
   ("IfStmt", [("KW_if", ⟨"IfStmt", ["KW_if", "LPAREN", "Expr", "RPAREN", "Stmt", "IfElseOpt"]⟩)]),
   ("IfElseOpt", [("KW_else", ⟨"IfElseOpt", ["KW_else", "Stmt"]⟩),
      ("KW_recipe", ⟨"IfElseOpt", ["ε"]⟩),
      ("KW_if", ⟨"IfElseOpt", ["ε"]⟩),
      ("KW_meanwhile", ⟨"IfElseOpt", ["ε"]⟩),
      ("KW_return", ⟨"IfElseOpt", ["ε"]⟩),
      ("LBRACE", ⟨"IfElseOpt", ["ε"]⟩),
      ("ID", ⟨"IfElseOpt", ["ε"]⟩),
      ("KW_put", ⟨"IfElseOpt", ["ε"]⟩),
      ("KW_take", ⟨"IfElseOpt", ["ε"]⟩),
      ("$", ⟨"IfElseOpt", ["ε"]⟩),
      ("RBRACE", ⟨"IfElseOpt", ["ε"]⟩)]),
   ("WhileStmt", [("KW_meanwhile", ⟨"WhileStmt", ["KW_meanwhile", "LPAREN", "Expr", "RPAREN", "Stmt"]⟩)]),
   ("ReturnStmt", [("KW_return", ⟨"ReturnStmt", ["KW_return", "ExprOpt", "SEMICOLON"]⟩)]),
   ("ExprOpt", [("OP_NOT", ⟨"ExprOpt", ["Expr"]⟩),
      ("OP_PLUS", ⟨"ExprOpt", ["Expr"]⟩),
      ("OP_MINUS", ⟨"ExprOpt", ["Expr"]⟩),
      ("NUMBER", ⟨"ExprOpt", ["Expr"]⟩),
      ("STRING", ⟨"ExprOpt", ["Expr"]⟩),
      ("KW_true", ⟨"ExprOpt", ["Expr"]⟩),
      ("KW_false", ⟨"ExprOpt", ["Expr"]⟩),
      ("KW_empty", ⟨"ExprOpt", ["Expr"]⟩),
      ("ID", ⟨"ExprOpt", ["Expr"]⟩),
      ("LPAREN", ⟨"ExprOpt", ["Expr"]⟩),
      ("SEMICOLON", ⟨"ExprOpt", ["ε"]⟩)]),
   ("Block", [("LBRACE", ⟨"Block", ["LBRACE", "StmtList", "RBRACE"]⟩)]),
   ("AssignStmt", [("ID", ⟨"AssignStmt", ["ID", "OP_ASSIGN", "Expr", "SEMICOLON"]⟩)]),
   ("Expr", [("OP_NOT", ⟨"Expr", ["OrExpr"]⟩),
      ("OP_PLUS", ⟨"Expr", ["OrExpr"]⟩),
      ("OP_MINUS", ⟨"Expr", ["OrExpr"]⟩),
      ("NUMBER", ⟨"Expr", ["OrExpr"]⟩),
      ("STRING", ⟨"Expr", ["OrExpr"]⟩),
      ("KW_true", ⟨"Expr", ["OrExpr"]⟩),
      ("KW_false", ⟨"Expr", ["OrExpr"]⟩),
      ("KW_empty", ⟨"Expr", ["OrExpr"]⟩),
      ("ID", ⟨"Expr", ["OrExpr"]⟩),
      ("LPAREN", ⟨"Expr", ["OrExpr"]⟩)]),
   ("OrExpr", [("OP_NOT", ⟨"OrExpr", ["AndExpr", "OrExprTail"]⟩),
      ("OP_PLUS", ⟨"OrExpr", ["AndExpr", "OrExprTail"]⟩),
      ("OP_MINUS", ⟨"OrExpr", ["AndExpr", "OrExprTail"]⟩),
      ("NUMBER", ⟨"OrExpr", ["AndExpr", "OrExprTail"]⟩),
      ("STRING", ⟨"OrExpr", ["AndExpr", "OrExprTail"]⟩),
      ("KW_true", ⟨"OrExpr", ["AndExpr", "OrExprTail"]⟩),
      ("KW_false", ⟨"OrExpr", ["AndExpr", "OrExprTail"]⟩),
      ("KW_empty", ⟨"OrExpr", ["AndExpr", "OrExprTail"]⟩),
      ("ID", ⟨"OrExpr", ["AndExpr", "OrExprTail"]⟩),
      ("LPAREN", ⟨"OrExpr", ["AndExpr", "OrExprTail"]⟩)]),
   ("OrExprTail", [("OP_OR", ⟨"OrExprTail", ["OP_OR", "AndExpr", "OrExprTail"]⟩),
      ("SEMICOLON", ⟨"OrExprTail", ["ε"]⟩),
      ("RPAREN", ⟨"OrExprTail", ["ε"]⟩),
      ("COMMA", ⟨"OrExprTail", ["ε"]⟩)]),
   ("AndExpr", [("OP_NOT", ⟨"AndExpr", ["EqualityExpr", "AndExprTail"]⟩),
      ("OP_PLUS", ⟨"AndExpr", ["EqualityExpr", "AndExprTail"]⟩),
      ("OP_MINUS", ⟨"AndExpr", ["EqualityExpr", "AndExprTail"]⟩),
      ("NUMBER", ⟨"AndExpr", ["EqualityExpr", "AndExprTail"]⟩),
      ("STRING", ⟨"AndExpr", ["EqualityExpr", "AndExprTail"]⟩),
      ("KW_true", ⟨"AndExpr", ["EqualityExpr", "AndExprTail"]⟩),
      ("KW_false", ⟨"AndExpr", ["EqualityExpr", "AndExprTail"]⟩),
      ("KW_empty", ⟨"AndExpr", ["EqualityExpr", "AndExprTail"]⟩),
      ("ID", ⟨"AndExpr", ["EqualityExpr", "AndExprTail"]⟩),
      ("LPAREN", ⟨"AndExpr", ["EqualityExpr", "AndExprTail"]⟩)]),
   ("AndExprTail", [("OP_AND", ⟨"AndExprTail", ["OP_AND", "EqualityExpr", "AndExprTail"]⟩),
      ("OP_OR", ⟨"AndExprTail", ["ε"]⟩),
      ("SEMICOLON", ⟨"AndExprTail", ["ε"]⟩),
      ("RPAREN", ⟨"AndExprTail", ["ε"]⟩),
      ("COMMA", ⟨"AndExprTail", ["ε"]⟩)]),
   ("EqualityExpr", [("OP_NOT", ⟨"EqualityExpr", ["RelExpr", "EqualityExprTail"]⟩),
      ("OP_PLUS", ⟨"EqualityExpr", ["RelExpr", "EqualityExprTail"]⟩),
      ("OP_MINUS", ⟨"EqualityExpr", ["RelExpr", "EqualityExprTail"]⟩),
      ("NUMBER", ⟨"EqualityExpr", ["RelExpr", "EqualityExprTail"]⟩),
      ("STRING", ⟨"EqualityExpr", ["RelExpr", "EqualityExprTail"]⟩),
      ("KW_true", ⟨"EqualityExpr", ["RelExpr", "EqualityExprTail"]⟩),
      ("KW_false", ⟨"EqualityExpr", ["RelExpr", "EqualityExprTail"]⟩),
      ("KW_empty", ⟨"EqualityExpr", ["RelExpr", "EqualityExprTail"]⟩),
      ("ID", ⟨"EqualityExpr", ["RelExpr", "EqualityExprTail"]⟩),
      ("LPAREN", ⟨"EqualityExpr", ["RelExpr", "EqualityExprTail"]⟩)]),
   ("EqualityExprTail", [("OP_EQ", ⟨"EqualityExprTail", ["OP_EQ", "RelExpr", "EqualityExprTail"]⟩),
      ("OP_NE", ⟨"EqualityExprTail", ["OP_NE", "RelExpr", "EqualityExprTail"]⟩),
      ("OP_AND", ⟨"EqualityExprTail", ["ε"]⟩),
      ("OP_OR", ⟨"EqualityExprTail", ["ε"]⟩),
      ("SEMICOLON", ⟨"EqualityExprTail", ["ε"]⟩),
      ("RPAREN", ⟨"EqualityExprTail", ["ε"]⟩),
      ("COMMA", ⟨"EqualityExprTail", ["ε"]⟩)]),
   ("RelExpr", [("OP_NOT", ⟨"RelExpr", ["AddExpr", "RelExprTail"]⟩),
      ("OP_PLUS", ⟨"RelExpr", ["AddExpr", "RelExprTail"]⟩),
      ("OP_MINUS", ⟨"RelExpr", ["AddExpr", "RelExprTail"]⟩),
      ("NUMBER", ⟨"RelExpr", ["AddExpr", "RelExprTail"]⟩),
      ("STRING", ⟨"RelExpr", ["AddExpr", "RelExprTail"]⟩),
      ("KW_true", ⟨"RelExpr", ["AddExpr", "RelExprTail"]⟩),
      ("KW_false", ⟨"RelExpr", ["AddExpr", "RelExprTail"]⟩),
      ("KW_empty", ⟨"RelExpr", ["AddExpr", "RelExprTail"]⟩),
      ("ID", ⟨"RelExpr", ["AddExpr", "RelExprTail"]⟩),
      ("LPAREN", ⟨"RelExpr", ["AddExpr", "RelExprTail"]⟩)]),
   ("RelExprTail", [("OP_LT", ⟨"RelExprTail", ["OP_LT", "AddExpr", "RelExprTail"]⟩),
      ("OP_LE", ⟨"RelExprTail", ["OP_LE", "AddExpr", "RelExprTail"]⟩),
      ("OP_GT", ⟨"RelExprTail", ["OP_GT", "AddExpr", "RelExprTail"]⟩),
      ("OP_GE", ⟨"RelExprTail", ["OP_GE", "AddExpr", "RelExprTail"]⟩),
      ("OP_EQ", ⟨"RelExprTail", ["ε"]⟩),
      ("OP_NE", ⟨"RelExprTail", ["ε"]⟩),
      ("OP_AND", ⟨"RelExprTail", ["ε"]⟩),
      ("OP_OR", ⟨"RelExprTail", ["ε"]⟩),
      ("SEMICOLON", ⟨"RelExprTail", ["ε"]⟩),
      ("RPAREN", ⟨"RelExprTail", ["ε"]⟩),
      ("COMMA", ⟨"RelExprTail", ["ε"]⟩)]),
   ("AddExpr", [("OP_NOT", ⟨"AddExpr", ["MulExpr", "AddExprTail"]⟩),
      ("OP_PLUS", ⟨"AddExpr", ["MulExpr", "AddExprTail"]⟩),
      ("OP_MINUS", ⟨"AddExpr", ["MulExpr", "AddExprTail"]⟩),
      ("NUMBER", ⟨"AddExpr", ["MulExpr", "AddExprTail"]⟩),
      ("STRING", ⟨"AddExpr", ["MulExpr", "AddExprTail"]⟩),
      ("KW_true", ⟨"AddExpr", ["MulExpr", "AddExprTail"]⟩),
      ("KW_false", ⟨"AddExpr", ["MulExpr", "AddExprTail"]⟩),
      ("KW_empty", ⟨"AddExpr", ["MulExpr", "AddExprTail"]⟩),
      ("ID", ⟨"AddExpr", ["MulExpr", "AddExprTail"]⟩),
      ("LPAREN", ⟨"AddExpr", ["MulExpr", "AddExprTail"]⟩)]),
   ("AddExprTail", [("OP_PLUS", ⟨"AddExprTail", ["OP_PLUS", "MulExpr", "AddExprTail"]⟩),
      ("OP_MINUS", ⟨"AddExprTail", ["OP_MINUS", "MulExpr", "AddExprTail"]⟩),
      ("OP_LT", ⟨"AddExprTail", ["ε"]⟩),
      ("OP_LE", ⟨"AddExprTail", ["ε"]⟩),
      ("OP_GT", ⟨"AddExprTail", ["ε"]⟩),
      ("OP_GE", ⟨"AddExprTail", ["ε"]⟩),
      ("OP_EQ", ⟨"AddExprTail", ["ε"]⟩),
      ("OP_NE", ⟨"AddExprTail", ["ε"]⟩),
      ("OP_AND", ⟨"AddExprTail", ["ε"]⟩),
      ("OP_OR", ⟨"AddExprTail", ["ε"]⟩),
      ("SEMICOLON", ⟨"AddExprTail", ["ε"]⟩),
      ("RPAREN", ⟨"AddExprTail", ["ε"]⟩),
      ("COMMA", ⟨"AddExprTail", ["ε"]⟩)]),
   ("MulExpr", [("OP_NOT", ⟨"MulExpr", ["UnaryExpr", "MulExprTail"]⟩),
      ("OP_PLUS", ⟨"MulExpr", ["UnaryExpr", "MulExprTail"]⟩),
      ("OP_MINUS", ⟨"MulExpr", ["UnaryExpr", "MulExprTail"]⟩),
      ("NUMBER", ⟨"MulExpr", ["UnaryExpr", "MulExprTail"]⟩),
      ("STRING", ⟨"MulExpr", ["UnaryExpr", "MulExprTail"]⟩),
      ("KW_true", ⟨"MulExpr", ["UnaryExpr", "MulExprTail"]⟩),
      ("KW_false", ⟨"MulExpr", ["UnaryExpr", "MulExprTail"]⟩),
      ("KW_empty", ⟨"MulExpr", ["UnaryExpr", "MulExprTail"]⟩),
      ("ID", ⟨"MulExpr", ["UnaryExpr", "MulExprTail"]⟩),
      ("LPAREN", ⟨"MulExpr", ["UnaryExpr", "MulExprTail"]⟩)]),
   ("MulExprTail", [("OP_STAR", ⟨"MulExprTail", ["OP_STAR", "UnaryExpr", "MulExprTail"]⟩),
      ("OP_SLASH", ⟨"MulExprTail", ["OP_SLASH", "UnaryExpr", "MulExprTail"]⟩),
      ("OP_PERCENT", ⟨"MulExprTail", ["OP_PERCENT", "UnaryExpr", "MulExprTail"]⟩),
      ("OP_PLUS", ⟨"MulExprTail", ["ε"]⟩),
      ("OP_MINUS", ⟨"MulExprTail", ["ε"]⟩),
      ("OP_LT", ⟨"MulExprTail", ["ε"]⟩),
      ("OP_LE", ⟨"MulExprTail", ["ε"]⟩),
      ("OP_GT", ⟨"MulExprTail", ["ε"]⟩),
      ("OP_GE", ⟨"MulExprTail", ["ε"]⟩),
      ("OP_EQ", ⟨"MulExprTail", ["ε"]⟩),
      ("OP_NE", ⟨"MulExprTail", ["ε"]⟩),
      ("OP_AND", ⟨"MulExprTail", ["ε"]⟩),
      ("OP_OR", ⟨"MulExprTail", ["ε"]⟩),
      ("SEMICOLON", ⟨"MulExprTail", ["ε"]⟩),
      ("RPAREN", ⟨"MulExprTail", ["ε"]⟩),
      ("COMMA", ⟨"MulExprTail", ["ε"]⟩)]),
   ("UnaryExpr", [("OP_NOT", ⟨"UnaryExpr", ["OP_NOT", "UnaryExpr"]⟩),
      ("OP_PLUS", ⟨"UnaryExpr", ["OP_PLUS", "UnaryExpr"]⟩),
      ("OP_MINUS", ⟨"UnaryExpr", ["OP_MINUS", "UnaryExpr"]⟩),
      ("NUMBER", ⟨"UnaryExpr", ["Primary"]⟩),
      ("STRING", ⟨"UnaryExpr", ["Primary"]⟩),
      ("KW_true", ⟨"UnaryExpr", ["Primary"]⟩),
      ("KW_false", ⟨"UnaryExpr", ["Primary"]⟩),
      ("KW_empty", ⟨"UnaryExpr", ["Primary"]⟩),
      ("ID", ⟨"UnaryExpr", ["Primary"]⟩),
      ("LPAREN", ⟨"UnaryExpr", ["Primary"]⟩)]),
   ("Primary", [("NUMBER", ⟨"Primary", ["NUMBER"]⟩),
      ("STRING", ⟨"Primary", ["STRING"]⟩),
      ("KW_true", ⟨"Primary", ["KW_true"]⟩),
      ("KW_false", ⟨"Primary", ["KW_false"]⟩),
      ("KW_empty", ⟨"Primary", ["KW_empty"]⟩),
      ("ID", ⟨"Primary", ["ID", "CallTail"]⟩),
      ("LPAREN", ⟨"Primary", ["LPAREN", "Expr", "RPAREN"]⟩)]),
   ("CallTail", [("LPAREN", ⟨"CallTail", ["LPAREN", "ArgListOpt", "RPAREN"]⟩),
      ("OP_STAR", ⟨"CallTail", ["ε"]⟩),
      ("OP_SLASH", ⟨"CallTail", ["ε"]⟩),
      ("OP_PERCENT", ⟨"CallTail", ["ε"]⟩),
      ("OP_PLUS", ⟨"CallTail", ["ε"]⟩),
      ("OP_MINUS", ⟨"CallTail", ["ε"]⟩),
      ("OP_LT", ⟨"CallTail", ["ε"]⟩),
      ("OP_LE", ⟨"CallTail", ["ε"]⟩),
      ("OP_GT", ⟨"CallTail", ["ε"]⟩),
      ("OP_GE", ⟨"CallTail", ["ε"]⟩),
      ("OP_EQ", ⟨"CallTail", ["ε"]⟩),
      ("OP_NE", ⟨"CallTail", ["ε"]⟩),
      ("OP_AND", ⟨"CallTail", ["ε"]⟩),
      ("OP_OR", ⟨"CallTail", ["ε"]⟩),
      ("SEMICOLON", ⟨"CallTail", ["ε"]⟩),
      ("RPAREN", ⟨"CallTail", ["ε"]⟩),
      ("COMMA", ⟨"CallTail", ["ε"]⟩)]),
   ("ArgListOpt", [("OP_NOT", ⟨"ArgListOpt", ["ArgList"]⟩),
      ("OP_PLUS", ⟨"ArgListOpt", ["ArgList"]⟩),
      ("OP_MINUS", ⟨"ArgListOpt", ["ArgList"]⟩),
      ("NUMBER", ⟨"ArgListOpt", ["ArgList"]⟩),
      ("STRING", ⟨"ArgListOpt", ["ArgList"]⟩),
      ("KW_true", ⟨"ArgListOpt", ["ArgList"]⟩),
      ("KW_false", ⟨"ArgListOpt", ["ArgList"]⟩),
      ("KW_empty", ⟨"ArgListOpt", ["ArgList"]⟩),
      ("ID", ⟨"ArgListOpt", ["ArgList"]⟩),
      ("LPAREN", ⟨"ArgListOpt", ["ArgList"]⟩),
      ("RPAREN", ⟨"ArgListOpt", ["ε"]⟩)]),
   ("ArgList", [("OP_NOT", ⟨"ArgList", ["Expr", "ArgListTail"]⟩),
      ("OP_PLUS", ⟨"ArgList", ["Expr", "ArgListTail"]⟩),
      ("OP_MINUS", ⟨"ArgList", ["Expr", "ArgListTail"]⟩),
      ("NUMBER", ⟨"ArgList", ["Expr", "ArgListTail"]⟩),
      ("STRING", ⟨"ArgList", ["Expr", "ArgListTail"]⟩),
      ("KW_true", ⟨"ArgList", ["Expr", "ArgListTail"]⟩),
      ("KW_false", ⟨"ArgList", ["Expr", "ArgListTail"]⟩),
      ("KW_empty", ⟨"ArgList", ["Expr", "ArgListTail"]⟩),
      ("ID", ⟨"ArgList", ["Expr", "ArgListTail"]⟩),
      ("LPAREN", ⟨"ArgList", ["Expr", "ArgListTail"]⟩)]),
   ("ArgListTail", [("COMMA", ⟨"ArgListTail", ["COMMA", "Expr", "ArgListTail"]⟩),
      ("RPAREN", ⟨"ArgListTail", ["ε"]⟩)])]

/-- Unfolding step of `iterFix` when the pass changed the table. -/
theorem iterFix_step {α : Type} [DecidableEq α] (n : Nat) (f : α → α) (x y : α)
    (h : f x = y) (hne : y ≠ x) : iterFix (n + 1) f x = iterFix n f y := by
  simp [iterFix, h, hne]

/-- Unfolding step of `iterFix` at a fixed point. -/
theorem iterFix_fix {α : Type} [DecidableEq α] (n : Nat) (f : α → α) (x : α)
    (h : f x = x) : iterFix (n + 1) f x = x := by
  simp [iterFix, h]

theorem firstStep0 : firstPass firstL0 = firstL1 := by decide
theorem firstStep1 : firstPass firstL1 = firstL2 := by decide
theorem firstStep2 : firstPass firstL2 = firstL3 := by decide
theorem firstStep3 : firstPass firstL3 = firstL4 := by decide
theorem firstStep4 : firstPass firstL4 = firstL5 := by decide
theorem firstStep5 : firstPass firstL5 = firstL6 := by decide
theorem firstStep6 : firstPass firstL6 = firstL7 := by decide
theorem firstStep7 : firstPass firstL7 = firstL8 := by decide
theorem firstStep8 : firstPass firstL8 = firstL9 := by decide
theorem firstStep9 : firstPass firstL9 = firstL10 := by decide

/-- `firstL10` is a fixed point of the FIRST pass. -/
theorem firstStep10 : firstPass firstL10 = firstL10 := by decide

/-- The FIRST engine returns `firstL10`. -/
theorem realFirst_eq : realFirst = firstL10 := by
  have h0 : initFirst = firstL0 := by decide
  unfold realFirst computeFirstSets
  rw [h0]
  rw [iterFix_step 99 _ _ _ firstStep0 (by decide)]
  rw [iterFix_step 98 _ _ _ firstStep1 (by decide)]
  rw [iterFix_step 97 _ _ _ firstStep2 (by decide)]
  rw [iterFix_step 96 _ _ _ firstStep3 (by decide)]
  rw [iterFix_step 95 _ _ _ firstStep4 (by decide)]
  rw [iterFix_step 94 _ _ _ firstStep5 (by decide)]
  rw [iterFix_step 93 _ _ _ firstStep6 (by decide)]
  rw [iterFix_step 92 _ _ _ firstStep7 (by decide)]
  rw [iterFix_step 91 _ _ _ firstStep8 (by decide)]
  rw [iterFix_step 90 _ _ _ firstStep9 (by decide)]
  exact iterFix_fix 89 _ _ firstStep10

theorem followStep0 : followPass firstL10 followL0 = followL1 := by decide
theorem followStep1 : followPass firstL10 followL1 = followL2 := by decide

/-- `followL2` is a fixed point of the FOLLOW pass. -/
theorem followStep2 : followPass firstL10 followL2 = followL2 := by decide

/-- The FOLLOW engine returns `followL2`. -/
theorem realFollow_eq : realFollow = followL2 := by
  have h0 : initFollow = followL0 := by decide
  unfold realFollow computeFollowSets
  rw [realFirst_eq, h0]
  rw [iterFix_step 99 _ _ _ followStep0 (by decide)]
  rw [iterFix_step 98 _ _ _ followStep1 (by decide)]
  exact iterFix_fix 97 _ _ followStep2

theorem buildTable_lit : buildParseTable firstL10 followL2 = tableLit := by decide

/-- The LL(1) table built by `runLL1`. -/
theorem realTable_eq : realTable = tableLit := by
  unfold realTable
  rw [realFirst_eq, realFollow_eq]
  exact buildTable_lit

/-! ## The tokenizer (src/lexer.ts)

The `Lexer` class holds the source string and a cursor `(i, line, col)`.
The embedding carries the remaining character suffix `r` together with
`line`/`col`; `advance()` becomes taking the head of `r` (with the newline
bookkeeping of the source inlined at each consumption site).  The
`while (true)` loop of `skipWhitespaceAndComments` is driven by fuel
instantiated with `r.length + 1` at its single call site, which one
character consumed per iteration makes sufficient. -/

namespace Lexer

/-- JavaScript `/\s/` (the whitespace test of the lexer). -/
def isWhitespace (c : Char) : Bool :=
  c = ' ' || c = '\t' || c = '\n' || c = '\r' || c = '\x0b' || c = '\x0c' ||
  c = '\u00A0' || c = '\u1680' || ('\u2000' ≤ c && c ≤ '\u200A') ||
  c = '\u2028' || c = '\u2029' || c = '\u202F' || c = '\u205F' ||
  c = '\u3000' || c = '\uFEFF'

/-- `/[0-9]/`. -/
def isDigit (c : Char) : Bool := '0' ≤ c && c ≤ '9'

/-- `/[A-Za-z_]/`. -/
def isIdentifierStart (c : Char) : Bool :=
  ('A' ≤ c && c ≤ 'Z') || ('a' ≤ c && c ≤ 'z') || c = '_'

/-- `/[A-Za-z0-9_]/`. -/
def isIdentifierPart (c : Char) : Bool := isIdentifierStart c || isDigit c

/-- `KEYWORDS` of src/lexer.ts. -/
def KEYWORDS : List String :=
  ["if", "else", "meanwhile", "do", "for", "recipe", "return", "put", "take",
   "true", "false", "empty"]

/-- `LEGACY_TO_DIALECT` of src/lexer.ts. -/
def LEGACY_TO_DIALECT : List (String × String) :=
  [("let", "put"), ("const", "take"), ("function", "recipe"),
   ("while", "meanwhile"), ("null", "empty"), ("var", "put")]

/-- `FORBIDDEN_IDENTIFIERS = LEGACY_TO_DIALECT.keys()`. -/
def FORBIDDEN_IDENTIFIERS : List String := LEGACY_TO_DIALECT.map (fun kv => kv.1)

/-- `OPERATORS` of src/lexer.ts, in declaration order (longest first). -/
def OPERATORS : List String :=
  ["===", "!==", "==", "!=", "<=", ">=", "&&", "||", "++", "--",
   "+", "-", "*", "/", "%", "<", ">", "=", "!"]

/-- `PUNCT` of src/lexer.ts (single characters). -/
def PUNCT : List Char := ['(', ')', '{', '}', '[', ']', ';', ',', '.']

/-- The line-comment loop of `skipWhitespaceAndComments`: consume up to (not
including) the next newline or the end of input.  Returns the remaining
suffix with the updated line/column. -/
def skipLineA : List Char → Nat → Nat → (List Char × Nat × Nat)
  | [], l, c => ([], l, c)
  | ch :: r, l, c => if ch = '\n' then (ch :: r, l, c) else skipLineA r l (c + 1)

/-- The block-comment loop: consume until `*/` (consuming it) or the end of
input. -/
def skipBlockA : List Char → Nat → Nat → (List Char × Nat × Nat)
  | [], l, c => ([], l, c)
  | ch :: r, l, c =>
    if ch = '*' ∧ r.get? 0 = some '/' then (r.drop 1, l, c + 2)
    else if ch = '\n' then skipBlockA r (l + 1) 1 else skipBlockA r l (c + 1)

/-- The fuel-driven `while (true)` loop of `skipWhitespaceAndComments`. -/
def skipWSA : Nat → List Char → Nat → Nat → (List Char × Nat × Nat)
  | 0, r, l, c => (r, l, c)
  | _ + 1, [], l, c => ([], l, c)
  | fuel + 1, ch :: rest, l, c =>
      if isWhitespace ch then
        if ch = '\n' then skipWSA fuel rest (l + 1) 1 else skipWSA fuel rest l (c + 1)
      else if ch = '/' ∧ rest.get? 0 = some '/' then
        let s := skipLineA (ch :: rest) l c
        skipWSA fuel s.1 s.2.1 s.2.2
      else if ch = '/' ∧ rest.get? 0 = some '*' then
        let s := skipBlockA (rest.drop 1) l (c + 2)
        skipWSA fuel s.1 s.2.1 s.2.2
      else (ch :: rest, l, c)

/-- `skipWhitespaceAndComments()`. -/
def skipWS (r : List Char) (l c : Nat) : List Char × Nat × Nat :=
  skipWSA (r.length + 1) r l c

/-- The string-literal loop: collect the content characters (escapes kept as
backslash plus the raw escaped character), consuming the closing quote when
present. -/
def scanStrA (quote : Char) : List Char → Nat → Nat → (List Char × List Char × Nat × Nat)
  | [], l, c => ([], [], l, c)
  | ch :: r, l, c =>
    if ch = quote then ([], r, l, c + 1)
    else if ch = '\\' then
      match r with
      | [] => (['\\'], [], l, c + 2)
      | e :: r2 =>
        if e = '\n' then
          let s := scanStrA quote r2 (l + 1) 1
          ('\\' :: e :: s.1, s.2)
        else
          let s := scanStrA quote r2 l (c + 2)
          ('\\' :: e :: s.1, s.2)
    else if ch = '\n' then
      let s := scanStrA quote r (l + 1) 1
      (ch :: s.1, s.2)
    else
      let s := scanStrA quote r l (c + 1)
      (ch :: s.1, s.2)

/-- The digit loop of the number branch (digits are never newlines, so only
the column moves). -/
def scanDigitsA : List Char → Nat → (List Char × List Char × Nat)
  | [], c => ([], [], c)
  | ch :: r, c =>
    if isDigit ch then
      let s := scanDigitsA r (c + 1)
      (ch :: s.1, s.2)
    else ([], ch :: r, c)

/-- The identifier-part loop. -/
def scanIdentA : List Char → Nat → (List Char × List Char × Nat)
  | [], c => ([], [], c)
  | ch :: r, c =>
    if isIdentifierPart ch then
      let s := scanIdentA r (c + 1)
      (ch :: s.1, s.2)
    else ([], ch :: r, c)

/-- Character-by-character comparison of an operator's spelling against the
input (`this.peek(k) !== op[k]`; out-of-bounds reads fail the match). -/
def opMatch : List Char → List Char → Bool
  | [], _ => true
  | _ :: _, [] => false
  | oc :: orest, rc :: rrest => oc = rc && opMatch orest rrest

/-- `matchLongestOperator()`: first operator of the declaration list whose
spelling is a prefix of the input; consumes it (operators contain no
newline). -/
def matchOps : List String → List Char → Nat → Option (String × List Char × Nat)
  | [], _, _ => none
  | op :: more, r, c =>
    if opMatch op.toList r then some (op, r.drop op.length, c + op.length)
    else matchOps more r c

/-- The legacy-identifier hint (` Use 'x' instead.`). -/
def hintFor (id : String) : String :=
  match lookupA LEGACY_TO_DIALECT id with
  | some s => " Use '" ++ s ++ "' instead."
  | none => ""

/-- The token-forming part of `nextToken()`, after whitespace and comments
have been skipped.  Returns the token and the remaining input with its
position, or the `Lexical error` thrown on a forbidden identifier. -/
def scanToken (r : List Char) (l c : Nat) :
    Except LexErr (Token × List Char × Nat × Nat) :=
  match r with
  | [] => .ok (⟨.EOF, "<EOF>", l, c⟩, [], l, c)
  | ch :: rest =>
    if ch = '"' ∨ ch = '\'' then
      let sc := scanStrA ch rest l (c + 1)
      .ok (⟨.String, String.mk (ch :: sc.1 ++ [ch]), l, c⟩, sc.2)
    else if isDigit ch then
      let d1 := scanDigitsA (ch :: rest) c
      if d1.2.1.head? = some '.' ∧ (d1.2.1.tail.head?).any isDigit then
        let d2 := scanDigitsA d1.2.1.tail (d1.2.2 + 1)
        .ok (⟨.Number, String.mk (d1.1 ++ '.' :: d2.1), l, c⟩, d2.2.1, l, d2.2.2)
      else .ok (⟨.Number, String.mk d1.1, l, c⟩, d1.2.1, l, d1.2.2)
    else if isIdentifierStart ch then
      let idt := scanIdentA rest (c + 1)
      let id := String.mk (ch :: idt.1)
      if id ∈ FORBIDDEN_IDENTIFIERS then
        .error ⟨l, c, "'" ++ id ++ "' is not valid in this language." ++ hintFor id⟩
      else if id ∈ KEYWORDS then .ok (⟨.Keyword, id, l, c⟩, idt.2.1, l, idt.2.2)
      else .ok (⟨.Identifier, id, l, c⟩, idt.2.1, l, idt.2.2)
    else
      match matchOps OPERATORS (ch :: rest) c with
      | some (op, r', c') => .ok (⟨.Operator, op, l, c⟩, r', l, c')
      | none =>
        if ch ∈ PUNCT then .ok (⟨.Punctuation, String.mk [ch], l, c⟩, rest, l, c + 1)
        else .ok (⟨.Operator, String.mk [ch], l, c⟩, rest, l, c + 1)

/-- `nextToken()`. -/
def nextTokenA (r : List Char) (l c : Nat) :
    Except LexErr (Token × List Char × Nat × Nat) :=
  let s := skipWS r l c
  scanToken s.1 s.2.1 s.2.2

/-- The `tokenize()` loop, fuel-driven; `none` is fuel exhaustion, which
`tokenize` rules out by spending one fuel per consumed character. -/
def tokenizeAux : Nat → List Char → Nat → Nat → Option (Except LexErr (List Token))
  | 0, _, _, _ => none
  | fuel + 1, r, l, c =>
    match nextTokenA r l c with
    | .error e => some (.error e)
    | .ok (t, r', l', c') =>
      if t.type = .EOF then some (.ok [t])
      else
        match tokenizeAux fuel r' l' c' with
        | none => none
        | some (.error e) => some (.error e)
        | some (.ok rest) => some (.ok (t :: rest))

end Lexer

/-! ### Termination and shape of the token stream -/

namespace Lexer

theorem skipLineA_length (r : List Char) (l c : Nat) :
    (skipLineA r l c).1.length ≤ r.length := by
  induction r generalizing l c with
  | nil => simp [skipLineA]
  | cons ch r ih =>
    rw [skipLineA]
    split
    · exact Nat.le_refl _
    · exact Nat.le_trans (ih l (c + 1)) (by simp)

theorem skipBlockA_length (r : List Char) (l c : Nat) :
    (skipBlockA r l c).1.length ≤ r.length := by
  induction r generalizing l c with
  | nil => simp [skipBlockA]
  | cons ch r ih =>
    rw [skipBlockA]
    split
    · simp only []
      have h1 : (r.drop 1).length ≤ r.length := by simp
      simp only [List.length_cons]
      omega
    · split
      · exact Nat.le_trans (ih (l + 1) 1) (by simp)
      · exact Nat.le_trans (ih l (c + 1)) (by simp)

theorem skipWSA_length (fuel : Nat) (r : List Char) (l c : Nat) :
    (skipWSA fuel r l c).1.length ≤ r.length := by
  induction fuel generalizing r l c with
  | zero => simp [skipWSA]
  | succ fuel ih =>
    match r with
    | [] => simp [skipWSA]
    | ch :: rest =>
      rw [skipWSA]
      split
      · split
        · exact Nat.le_trans (ih rest (l + 1) 1) (by simp)
        · exact Nat.le_trans (ih rest l (c + 1)) (by simp)
      · split
        · have h1 := skipLineA_length (ch :: rest) l c
          have h2 := ih (skipLineA (ch :: rest) l c).1 (skipLineA (ch :: rest) l c).2.1
            (skipLineA (ch :: rest) l c).2.2
          exact Nat.le_trans h2 h1
        · split
          · have h1 := skipBlockA_length (rest.drop 1) l (c + 2)
            have h2 := ih (skipBlockA (rest.drop 1) l (c + 2)).1
              (skipBlockA (rest.drop 1) l (c + 2)).2.1 (skipBlockA (rest.drop 1) l (c + 2)).2.2
            have h3 : (rest.drop 1).length ≤ rest.length := by simp
            simp only [List.length_cons]
            omega
          · exact Nat.le_refl _

theorem skipWS_length (r : List Char) (l c : Nat) :
    (skipWS r l c).1.length ≤ r.length :=
  skipWSA_length (r.length + 1) r l c

theorem scanStrA_length (q : Char) (n : Nat) :
    ∀ (r : List Char), r.length ≤ n → ∀ (l c : Nat),
      ((scanStrA q r l c).2.1).length ≤ r.length := by
  induction n with
  | zero =>
    intro r hr l c
    match r with
    | [] => simp [scanStrA]
    | ch :: r => simp at hr
  | succ n ih =>
    intro r hr l c
    match r with
    | [] => simp [scanStrA]
    | ch :: r =>
      rw [scanStrA.eq_def]
      simp only []
      split
      · simp
      · split
        · match r with
          | [] => simp
          | e :: r2 =>
            simp only []
            split
            · have := ih r2 (by simp at hr; omega) (l + 1) 1
              simp only [List.length_cons]
              omega
            · have := ih r2 (by simp at hr; omega) l (c + 2)
              simp only [List.length_cons]
              omega
        · split
          · have := ih r (by simp at hr; omega) (l + 1) 1
            simp only [List.length_cons]
            omega
          · have := ih r (by simp at hr; omega) l (c + 1)
            simp only [List.length_cons]
            omega

theorem scanDigitsA_length (r : List Char) (c : Nat) :
    ((scanDigitsA r c).2.1).length ≤ r.length := by
  induction r generalizing c with
  | nil => simp [scanDigitsA]
  | cons ch r ih =>
    rw [scanDigitsA]
    split
    · exact Nat.le_trans (ih (c + 1)) (by simp)
    · simp

theorem scanIdentA_length (r : List Char) (c : Nat) :
    ((scanIdentA r c).2.1).length ≤ r.length := by
  induction r generalizing c with
  | nil => simp [scanIdentA]
  | cons ch r ih =>
    rw [scanIdentA]
    split
    · exact Nat.le_trans (ih (c + 1)) (by simp)
    · simp

theorem matchOps_some (ops : List String) (r : List Char) (c : Nat)
    (op : String) (r' : List Char) (c' : Nat)
    (h : matchOps ops r c = some (op, r', c')) :
    op ∈ ops ∧ r' = r.drop op.length := by
  induction ops with
  | nil => cases h
  | cons o more ih =>
    rw [matchOps] at h
    split at h
    · injection h with h1
      injection h1 with h2 h3
      injection h3 with h4 h5
      subst h2 h4
      exact ⟨List.mem_cons_self _ _, rfl⟩
    · obtain ⟨h1, h2⟩ := ih h
      exact ⟨List.mem_cons_of_mem _ h1, h2⟩

theorem OPERATORS_pos : ∀ op ∈ OPERATORS, 1 ≤ op.length := by decide

theorem okEq {x : Token × List Char × Nat × Nat} {t : Token} {r' : List Char}
    {l' c' : Nat} (h : (Except.ok x : Except LexErr _) = .ok (t, r', l', c')) :
    t = x.1 ∧ r' = x.2.1 ∧ l' = x.2.2.1 ∧ c' = x.2.2.2 := by
  injection h with h1
  exact ⟨by rw [h1], by rw [h1], by rw [h1], by rw [h1]⟩

theorem scanToken_progress (r : List Char) (l c : Nat) (t : Token)
    (r' : List Char) (l' c' : Nat)
    (h : scanToken r l c = .ok (t, r', l', c')) (ht : t.type ≠ .EOF) :
    r'.length < r.length := by
  match r with
  | [] =>
    rw [scanToken] at h
    obtain ⟨h1, -, -, -⟩ := okEq h
    exact absurd (by rw [h1]) ht
  | ch :: rest =>
    rw [scanToken] at h
    simp only [] at h
    split_ifs at h with hstr hdig hdot hid hforb hkw
    · -- string literal
      obtain ⟨-, hr', -, -⟩ := okEq h
      have h4 := scanStrA_length ch rest.length rest (Nat.le_refl _) l (c + 1)
      rw [hr']
      simp only [List.length_cons]
      omega
    · -- number with decimal part
      obtain ⟨-, hr', -, -⟩ := okEq h
      have hd1 := scanDigitsA_length (ch :: rest) c
      have hd2 := scanDigitsA_length (scanDigitsA (ch :: rest) c).2.1.tail
        ((scanDigitsA (ch :: rest) c).2.2 + 1)
      have hne : (scanDigitsA (ch :: rest) c).2.1 ≠ [] := by
        intro hnil
        rw [hnil] at hdot
        simp at hdot
      have hpos : 1 ≤ (scanDigitsA (ch :: rest) c).2.1.length :=
        List.length_pos.mpr hne
      have htl : (scanDigitsA (ch :: rest) c).2.1.tail.length
          = (scanDigitsA (ch :: rest) c).2.1.length - 1 := by simp
      rw [hr']
      simp only [List.length_cons] at hd1 ⊢
      omega
    · -- number without decimal part
      obtain ⟨-, hr', -, -⟩ := okEq h
      have hstep : (scanDigitsA (ch :: rest) c).2.1.length ≤ rest.length := by
        rw [scanDigitsA]
        rw [if_pos hdig]
        exact scanDigitsA_length rest (c + 1)
      rw [hr']
      simp only [List.length_cons]
      omega
    · -- keyword
      obtain ⟨-, hr', -, -⟩ := okEq h
      have h6 := scanIdentA_length rest (c + 1)
      rw [hr']
      simp only [List.length_cons]
      omega
    · -- plain identifier
      obtain ⟨-, hr', -, -⟩ := okEq h
      have h6 := scanIdentA_length rest (c + 1)
      rw [hr']
      simp only [List.length_cons]
      omega
    · -- operator or punctuation
      split at h
      · rename_i op r2 c2 hop
        obtain ⟨-, hr', -, -⟩ := okEq h
        obtain ⟨hmem, hdrop⟩ := matchOps_some OPERATORS (ch :: rest) c op r2 c2 hop
        have hlen := OPERATORS_pos op hmem
        rw [hr']
        simp only []
        rw [hdrop]
        simp only [List.length_drop, List.length_cons]
        omega
      · obtain ⟨-, hr', -, -⟩ := okEq h
        rw [hr']
        simp only [List.length_cons]
        omega
    · -- operator or unknown single character
      split at h
      · rename_i op r2 c2 hop
        obtain ⟨-, hr', -, -⟩ := okEq h
        obtain ⟨hmem, hdrop⟩ := matchOps_some OPERATORS (ch :: rest) c op r2 c2 hop
        have hlen := OPERATORS_pos op hmem
        rw [hr']
        simp only []
        rw [hdrop]
        simp only [List.length_drop, List.length_cons]
        omega
      · obtain ⟨-, hr', -, -⟩ := okEq h
        rw [hr']
        simp only [List.length_cons]
        omega

theorem nextTokenA_progress (r : List Char) (l c : Nat) (t : Token)
    (r' : List Char) (l' c' : Nat)
    (h : nextTokenA r l c = .ok (t, r', l', c')) (ht : t.type ≠ .EOF) :
    r'.length < r.length := by
  unfold nextTokenA at h
  have h1 := scanToken_progress (skipWS r l c).1 (skipWS r l c).2.1 (skipWS r l c).2.2
    t r' l' c' h ht
  have h2 := skipWS_length r l c
  omega


theorem tokenizeAux_total (fuel : Nat) :
    ∀ (r : List Char) (l c : Nat), r.length < fuel →
      (tokenizeAux fuel r l c).isSome := by
  induction fuel with
  | zero => intro r l c h; exact absurd h (Nat.not_lt_zero _)
  | succ fuel ih =>
    intro r l c h
    rw [tokenizeAux.eq_def]
    simp only []
    cases hnt : nextTokenA r l c with
    | error e => simp
    | ok res =>
      obtain ⟨t, r', l', c'⟩ := res
      simp only []
      split
      · simp
      · rename_i hne
        have hp := nextTokenA_progress r l c t r' l' c' hnt hne
        have hs := ih r' l' c' (by omega)
        cases htk : tokenizeAux fuel r' l' c' with
        | none => rw [htk] at hs; simp at hs
        | some res2 => cases res2 <;> simp

theorem tokenizeAux_ok (fuel : Nat) :
    ∀ (r : List Char) (l c : Nat) (toks : List Token),
      tokenizeAux fuel r l c = some (.ok toks) →
      toks ≠ [] ∧ (∃ te, toks.getLast? = some te ∧ te.type = .EOF) ∧
        toks.countP (fun tk => tk.type == .EOF) = 1 := by
  induction fuel with
  | zero => intro r l c toks h; simp [tokenizeAux] at h
  | succ fuel ih =>
    intro r l c toks h
    rw [tokenizeAux.eq_def] at h
    simp only [] at h
    cases hnt : nextTokenA r l c with
    | error e => rw [hnt] at h; simp at h
    | ok res =>
      obtain ⟨t, r', l', c'⟩ := res
      rw [hnt] at h
      simp only [] at h
      split at h
      · rename_i hEOF
        have h1 : [t] = toks := by
          injection h with h1
          injection h1
        subst h1
        refine ⟨by simp, ⟨t, by simp, hEOF⟩, ?_⟩
        simp [List.countP, List.countP.go, hEOF]
      · rename_i hne
        cases htk : tokenizeAux fuel r' l' c' with
        | none => rw [htk] at h; cases h
        | some res2 =>
          rw [htk] at h
          cases res2 with
          | error e => simp at h
          | ok rest =>
            simp only [] at h
            have hcons : t :: rest = toks := by
              injection h with h1
              injection h1
            subst hcons
            obtain ⟨hne2, ⟨te, hlast, hty⟩, hcount⟩ := ih r' l' c' rest htk
            refine ⟨by simp, ⟨te, ?_, hty⟩, ?_⟩
            · match rest, hne2 with
              | b :: l2, _ => rw [List.getLast?_cons_cons]; exact hlast
            · rw [List.countP_cons]
              have hfalse : (t.type == TokenType.EOF) = false := by
                simp only [beq_eq_false_iff_ne, ne_eq]
                exact hne
              rw [hfalse]
              simp [hcount]

/-- `Lexer.tokenize(source)`: run the token loop with sufficient fuel. -/
def tokenize (source : String) : Except LexErr (List Token) :=
  (tokenizeAux (source.toList.length + 1) source.toList 1 1).get
    (tokenizeAux_total _ _ 1 1 (Nat.lt_succ_self _))

theorem tokenize_eq {source : String} {res : Except LexErr (List Token)}
    (h : tokenizeAux (source.toList.length + 1) source.toList 1 1 = some res) :
    tokenize source = res := by
  unfold tokenize
  exact Option.get_of_mem _ h

end Lexer

/-! ## The recursive-descent parser (src/parser.ts)

The AST types of src/parser.ts, then the `Parser` class.  Its cursor `i`
is passed explicitly; every method returns its value together with the new
cursor, or the thrown `Syntax error`.  The class's recursion (statements
containing statements, expressions containing expressions) is driven by a
fuel argument that every nested call decrements; `Parser.parse` spends fuel
only on nesting, so any fixed budget larger than the nesting depth of the
input reproduces the source behavior. -/

/-- The `Literal` values (`string | number | boolean | null`); the numeric
conversion `Number(lexeme)` keeps the lexeme. -/
inductive LitValue where
  | num (n : String)
  | str (s : String)
  | bool (b : Bool)
  | null
deriving DecidableEq, Repr

mutual
/-- `Expr` of src/parser.ts. -/
inductive PExpr where
  | binary (op : String) (left right : PExpr)
  | unary (op : String) (argument : PExpr)
  | literal (value : LitValue)
  | ident (name : String)
  | call (callee : PExpr) (args : List PExpr)
  | assignment (id : String) (value : PExpr)

/-- `Stmt` of src/parser.ts. -/
inductive PStmt where
  | varDecl (id : String) (init : Option PExpr) (kindKw : String)
  | functionDecl (name : String) (params : List String) (body : List PStmt)
  | ifS (test : PExpr) (consequent : List PStmt) (alternate : Option (List PStmt))
  | whileS (test : PExpr) (body : List PStmt)
  | doWhile (body : List PStmt) (test : PExpr)
  | forS (init : Option PStmt) (test : Option PExpr) (update : Option PExpr)
      (body : List PStmt)
  | returnS (argument : Option PExpr)
  | exprStmt (expr : PExpr)
  | block (body : List PStmt)
end

/-- `stmt.kind === 'Block' ? stmt.body : [stmt]`. -/
def blockBody : PStmt → List PStmt
  | .block b => b
  | s => [s]

/-- `(this.parseBlock() as any).body`. -/
def bodyOf : PStmt → List PStmt
  | .block b => b
  | _ => []

namespace Parser

/-- `peek()`: `tokens[i] ?? tokens[tokens.length - 1]`.  On an empty token
array the source would fault reading `undefined`; the lexer never produces
one, and the default below is never reached on lexer output. -/
def peekT (ts : List Token) (i : Nat) : Token :=
  ((ts.get? i).orElse (fun _ => ts.get? (ts.length - 1))).getD ⟨.EOF, "<EOF>", 0, 0⟩

/-- `atEnd()`. -/
def atEnd (ts : List Token) (i : Nat) : Bool := (peekT ts i).type == .EOF

/-- The distinguished out-of-fuel marker (the source's unbounded call stack
never reports this; adequate fuel makes it unreachable). -/
def fuelErr : PErr := ⟨0, 0, "fuel exhausted"⟩

/-- `expect(type, lexeme?)`. -/
def expectT (ts : List Token) (i : Nat) (ty : TokenType) (lx : Option String) :
    Except PErr (Token × Nat) :=
  let t := peekT ts i
  if t.type ≠ ty then
    .error ⟨t.line, t.column, "found " ++ tokenTypeName t.type ++ " '" ++ t.lexeme ++ "'"⟩
  else
    match lx with
    | some l =>
      if t.lexeme ≠ l then .error ⟨t.line, t.column, "found '" ++ t.lexeme ++ "'"⟩
      else .ok (t, i + 1)
    | none => .ok (t, i + 1)

/-- `firstOfExpression(t)`. -/
def firstOfExpression (t : Token) : Bool :=
  t.type == .Number || t.type == .String || t.type == .Identifier ||
  (t.type == .Punctuation && t.lexeme == "(") ||
  (t.type == .Operator && (t.lexeme == "!" || t.lexeme == "+" || t.lexeme == "-")) ||
  (t.type == .Keyword && (t.lexeme == "true" || t.lexeme == "false" || t.lexeme == "empty"))

/-- `firstOfStatement(t)`. -/
def firstOfStatement (t : Token) : Bool :=
  (t.type == .Keyword &&
    (t.lexeme == "put" || t.lexeme == "take" || t.lexeme == "recipe" ||
     t.lexeme == "if" || t.lexeme == "else" || t.lexeme == "meanwhile" ||
     t.lexeme == "do" || t.lexeme == "for" || t.lexeme == "return")) ||
  (t.type == .Punctuation && t.lexeme == "\x7b") ||
  firstOfExpression t

/-- `Parser.LEGACY_DECL_IDENTIFIERS`. -/
def LEGACY_DECL_IDENTIFIERS : List String := ["let", "const", "var"]

mutual

/-- The statement loop of `parseProgram()`. -/
def parseProgramLoop (ts : List Token) : Nat → Nat → Except PErr (List PStmt × Nat)
  | 0, _ => .error fuelErr
  | fuel + 1, i =>
    if atEnd ts i then .ok ([], i)
    else
      let t0 := peekT ts i
      if ¬ firstOfStatement t0 then
        .error ⟨t0.line, t0.column, "invalid start of statement '" ++ t0.lexeme ++ "'"⟩
      else do
        let (s, i1) ← parseStatement ts fuel i
        let (rest, i2) ← parseProgramLoop ts fuel i1
        pure (s :: rest, i2)
termination_by structural fuel _ => fuel

/-- `parseStatement()`. -/
def parseStatement (ts : List Token) : Nat → Nat → Except PErr (PStmt × Nat)
  | 0, _ => .error fuelErr
  | fuel + 1, i =>
    let t := peekT ts i
    if t.type = .Keyword ∧ t.lexeme = "put" then parseVarDecl ts fuel true i
    else if t.type = .Keyword ∧ t.lexeme = "take" then parseVarDecl ts fuel true i
    else if t.type = .Keyword ∧ t.lexeme = "recipe" then parseRecipeDecl ts fuel i
    else if t.type = .Keyword ∧ t.lexeme = "if" then parseIf ts fuel i
    else if t.type = .Keyword ∧ t.lexeme = "meanwhile" then parseWhile ts fuel i
    else if t.type = .Keyword ∧ t.lexeme = "do" then parseDoWhile ts fuel i
    else if t.type = .Keyword ∧ t.lexeme = "for" then parseFor ts fuel i
    else if t.type = .Keyword ∧ t.lexeme = "return" then parseReturn ts fuel i
    else if t.type = .Punctuation ∧ t.lexeme = "\x7b" then parseBlock ts fuel i
    else if t.type = .Identifier ∧ t.lexeme ∈ LEGACY_DECL_IDENTIFIERS then
      .error ⟨t.line, t.column,
        "'" ++ t.lexeme ++ "' is not a declaration keyword in this language"⟩
    else if ¬ firstOfExpression t then
      .error ⟨t.line, t.column, "invalid start of expression '" ++ t.lexeme ++ "'"⟩
    else do
      let (e, i1) ← parseExpression ts fuel i
      let t1 := peekT ts i1
      if t1.type = .Punctuation ∧ t1.lexeme = ";" then pure (.exprStmt e, i1 + 1)
      else .error ⟨t1.line, t1.column, "missing ';' after expression statement"⟩
termination_by structural fuel _ => fuel

/-- The statement loop of `parseBlock()` (`while !atEnd and peek is not
the closing brace`). -/
def parseBlockLoop (ts : List Token) : Nat → Nat → Except PErr (List PStmt × Nat)
  | 0, _ => .error fuelErr
  | fuel + 1, i =>
    if ¬ (atEnd ts i) ∧
        ¬ ((peekT ts i).type = .Punctuation ∧ (peekT ts i).lexeme = "\x7d") then do
      let (s, i1) ← parseStatement ts fuel i
      let (rest, i2) ← parseBlockLoop ts fuel i1
      pure (s :: rest, i2)
    else pure ([], i)
termination_by structural fuel _ => fuel

/-- `parseBlock()`. -/
def parseBlock (ts : List Token) : Nat → Nat → Except PErr (PStmt × Nat)
  | 0, _ => .error fuelErr
  | fuel + 1, i => do
    let (opn, i1) ← expectT ts i .Punctuation (some "\x7b")
    let (body, i2) ← parseBlockLoop ts fuel i1
    if atEnd ts i2 then
      .error ⟨opn.line, opn.column, "unterminated block: missing closing brace"⟩
    else do
      let (_, i3) ← expectT ts i2 .Punctuation (some "\x7d")
      pure (.block body, i3)
termination_by structural fuel _ => fuel

/-- `parseVarDecl(needsSemicolon)`. -/
def parseVarDecl (ts : List Token) : Nat → Bool → Nat → Except PErr (PStmt × Nat)
  | 0, _, _ => .error fuelErr
  | fuel + 1, needsSemicolon, i =>
    let kw := peekT ts i
    if ¬ (kw.type = .Keyword ∧ (kw.lexeme = "put" ∨ kw.lexeme = "take")) then
      .error ⟨kw.line, kw.column, "expected 'put' or 'take'"⟩
    else do
      let (idTok, i2) ← expectT ts (i + 1) .Identifier none
      let (init, i3) ←
        (if (peekT ts i2).type = .Operator ∧ (peekT ts i2).lexeme = "=" then do
          let (e, j) ← parseExpression ts fuel (i2 + 1)
          pure (some e, j)
        else pure (none, i2) : Except PErr (Option PExpr × Nat))
      if needsSemicolon then
        if (peekT ts i3).type = .Punctuation ∧ (peekT ts i3).lexeme = ";" then
          pure (.varDecl idTok.lexeme init kw.lexeme, i3 + 1)
        else
          .error ⟨(peekT ts i3).line, (peekT ts i3).column,
            "missing ';' after variable declaration"⟩
      else pure (.varDecl idTok.lexeme init kw.lexeme, i3)

/-- The parameter do-while loop of `parseRecipeDecl()`. -/
def parseParams (ts : List Token) : Nat → Nat → Except PErr (List String × Nat)
  | 0, _ => .error fuelErr
  | fuel + 1, i => do
    let (idTok, i1) ← expectT ts i .Identifier none
    if (peekT ts i1).type = .Punctuation ∧ (peekT ts i1).lexeme = "," then do
      let (rest, i2) ← parseParams ts fuel (i1 + 1)
      pure (idTok.lexeme :: rest, i2)
    else pure ([idTok.lexeme], i1)
termination_by structural fuel _ => fuel

/-- `parseRecipeDecl()`. -/
def parseRecipeDecl (ts : List Token) : Nat → Nat → Except PErr (PStmt × Nat)
  | 0, _ => .error fuelErr
  | fuel + 1, i => do
    let (_, i1) ← expectT ts i .Keyword (some "recipe")
    let (nameTok, i2) ← expectT ts i1 .Identifier none
    let (_, i3) ← expectT ts i2 .Punctuation (some "(")
    let (params, i4) ←
      (if (peekT ts i3).type = .Punctuation ∧ (peekT ts i3).lexeme = ")" then
        pure ([], i3)
      else parseParams ts fuel i3 : Except PErr (List String × Nat))
    let (_, i5) ← expectT ts i4 .Punctuation (some ")")
    let (blk, i6) ← parseBlock ts fuel i5
    pure (.functionDecl nameTok.lexeme params (bodyOf blk), i6)
termination_by structural fuel _ => fuel

/-- `parseIf()`. -/
def parseIf (ts : List Token) : Nat → Nat → Except PErr (PStmt × Nat)
  | 0, _ => .error fuelErr
  | fuel + 1, i => do
    let (_, i1) ← expectT ts i .Keyword (some "if")
    let (_, i2) ← expectT ts i1 .Punctuation (some "(")
    let (test, i3) ← parseExpression ts fuel i2
    let (_, i4) ← expectT ts i3 .Punctuation (some ")")
    let (consequent, i5) ← parseStatement ts fuel i4
    if (peekT ts i5).type = .Keyword ∧ (peekT ts i5).lexeme = "else" then do
      let (alt, i6) ← parseStatement ts fuel (i5 + 1)
      pure (.ifS test (blockBody consequent) (some (blockBody alt)), i6)
    else pure (.ifS test (blockBody consequent) none, i5)
termination_by structural fuel _ => fuel

/-- `parseWhile()` (`meanwhile`). -/
def parseWhile (ts : List Token) : Nat → Nat → Except PErr (PStmt × Nat)
  | 0, _ => .error fuelErr
  | fuel + 1, i => do
    let (_, i1) ← expectT ts i .Keyword (some "meanwhile")
    let (_, i2) ← expectT ts i1 .Punctuation (some "(")
    let (test, i3) ← parseExpression ts fuel i2
    let (_, i4) ← expectT ts i3 .Punctuation (some ")")
    let (bodyStmt, i5) ← parseStatement ts fuel i4
    pure (.whileS test (blockBody bodyStmt), i5)
termination_by structural fuel _ => fuel

/-- `parseDoWhile()`. -/
def parseDoWhile (ts : List Token) : Nat → Nat → Except PErr (PStmt × Nat)
  | 0, _ => .error fuelErr
  | fuel + 1, i => do
    let (_, i1) ← expectT ts i .Keyword (some "do")
    let (bodyStmt, i2) ← parseStatement ts fuel i1
    let (_, i3) ← expectT ts i2 .Keyword (some "meanwhile")
    let (_, i4) ← expectT ts i3 .Punctuation (some "(")
    let (test, i5) ← parseExpression ts fuel i4
    let (_, i6) ← expectT ts i5 .Punctuation (some ")")
    let i7 :=
      if (peekT ts i6).type = .Punctuation ∧ (peekT ts i6).lexeme = ";" then i6 + 1
      else i6
    pure (.doWhile (blockBody bodyStmt) test, i7)
termination_by structural fuel _ => fuel

/-- `parseFor()`. -/
def parseFor (ts : List Token) : Nat → Nat → Except PErr (PStmt × Nat)
  | 0, _ => .error fuelErr
  | fuel + 1, i => do
    let (_, i1) ← expectT ts i .Keyword (some "for")
    let (_, i2) ← expectT ts i1 .Punctuation (some "(")
    let (init, i3) ←
      (if ¬ ((peekT ts i2).type = .Punctuation ∧ (peekT ts i2).lexeme = ";") then
        if (peekT ts i2).type = .Keyword ∧
            ((peekT ts i2).lexeme = "put" ∨ (peekT ts i2).lexeme = "take") then do
          let (s, j) ← parseVarDecl ts fuel false i2
          pure (some s, j)
        else if (peekT ts i2).type = .Identifier ∧
            (peekT ts i2).lexeme ∈ LEGACY_DECL_IDENTIFIERS then
          .error ⟨(peekT ts i2).line, (peekT ts i2).column,
            "'" ++ (peekT ts i2).lexeme ++ "' is not a declaration keyword in this language"⟩
        else if ¬ firstOfExpression (peekT ts i2) then
          .error ⟨(peekT ts i2).line, (peekT ts i2).column,
            "invalid start of expression in for-init"⟩
        else do
          let (e, j) ← parseExpression ts fuel i2
          if (peekT ts j).type = .Punctuation ∧ (peekT ts j).lexeme = ";" then
            pure (some (.exprStmt e), j + 1)
          else
            .error ⟨(peekT ts j).line, (peekT ts j).column, "missing ';' after for-init"⟩
      else do
        let (_, j) ← expectT ts i2 .Punctuation (some ";")
        pure (none, j) : Except PErr (Option PStmt × Nat))
    let (test, i4) ←
      (if ¬ ((peekT ts i3).type = .Punctuation ∧ (peekT ts i3).lexeme = ";") then do
        let (e, j) ← parseExpression ts fuel i3
        pure (some e, j)
      else pure (none, i3) : Except PErr (Option PExpr × Nat))
    let (_, i5) ← expectT ts i4 .Punctuation (some ";")
    let (update, i6) ←
      (if ¬ ((peekT ts i5).type = .Punctuation ∧ (peekT ts i5).lexeme = ")") then do
        let (e, j) ← parseExpression ts fuel i5
        pure (some e, j)
      else pure (none, i5) : Except PErr (Option PExpr × Nat))
    let (_, i7) ← expectT ts i6 .Punctuation (some ")")
    let (bodyStmt, i8) ← parseStatement ts fuel i7
    pure (.forS init test update (blockBody bodyStmt), i8)
termination_by structural fuel _ => fuel

/-- `parseReturn()`. -/
def parseReturn (ts : List Token) : Nat → Nat → Except PErr (PStmt × Nat)
  | 0, _ => .error fuelErr
  | fuel + 1, i => do
    let (_, i1) ← expectT ts i .Keyword (some "return")
    let (argument, i2) ←
      (if ¬ ((peekT ts i1).type = .Punctuation ∧ (peekT ts i1).lexeme = ";") then do
        let (e, j) ← parseExpression ts fuel i1
        pure (some e, j)
      else pure (none, i1) : Except PErr (Option PExpr × Nat))
    let i3 :=
      if (peekT ts i2).type = .Punctuation ∧ (peekT ts i2).lexeme = ";" then i2 + 1
      else i2
    pure (.returnS argument, i3)

/-- `parseExpression()`. -/
def parseExpression (ts : List Token) : Nat → Nat → Except PErr (PExpr × Nat)
  | 0, _ => .error fuelErr
  | fuel + 1, i => parseAssignment ts fuel i
termination_by structural fuel _ => fuel

/-- `parseAssignment()`. -/
def parseAssignment (ts : List Token) : Nat → Nat → Except PErr (PExpr × Nat)
  | 0, _ => .error fuelErr
  | fuel + 1, i => do
    let (e, i1) ← parseLogicalOr ts fuel i
    if (peekT ts i1).type = .Operator ∧ (peekT ts i1).lexeme = "=" then
      match e with
      | .ident name => do
        let (v, i3) ← parseAssignment ts fuel (i1 + 1)
        pure (.assignment name v, i3)
      | _ =>
        .error ⟨(peekT ts (i1 + 1)).line, (peekT ts (i1 + 1)).column,
          "left side of assignment must be an identifier"⟩
    else pure (e, i1)
termination_by structural fuel _ => fuel

/-- `parseLogicalOr()`. -/
def parseLogicalOr (ts : List Token) : Nat → Nat → Except PErr (PExpr × Nat)
  | 0, _ => .error fuelErr
  | fuel + 1, i => do
    let (l, i1) ← parseLogicalAnd ts fuel i
    parseLogicalOrLoop ts fuel l i1
termination_by structural fuel _ => fuel

def parseLogicalOrLoop (ts : List Token) : Nat → PExpr → Nat → Except PErr (PExpr × Nat)
  | 0, _, _ => .error fuelErr
  | fuel + 1, left, i =>
    if (peekT ts i).type = .Operator ∧ (peekT ts i).lexeme = "||" then do
      let (r, i1) ← parseLogicalAnd ts fuel (i + 1)
      parseLogicalOrLoop ts fuel (.binary (peekT ts i).lexeme left r) i1
    else pure (left, i)
termination_by structural fuel _ _ => fuel

/-- `parseLogicalAnd()`. -/
def parseLogicalAnd (ts : List Token) : Nat → Nat → Except PErr (PExpr × Nat)
  | 0, _ => .error fuelErr
  | fuel + 1, i => do
    let (l, i1) ← parseEquality ts fuel i
    parseLogicalAndLoop ts fuel l i1
termination_by structural fuel _ => fuel

def parseLogicalAndLoop (ts : List Token) : Nat → PExpr → Nat → Except PErr (PExpr × Nat)
  | 0, _, _ => .error fuelErr
  | fuel + 1, left, i =>
    if (peekT ts i).type = .Operator ∧ (peekT ts i).lexeme = "&&" then do
      let (r, i1) ← parseEquality ts fuel (i + 1)
      parseLogicalAndLoop ts fuel (.binary (peekT ts i).lexeme left r) i1
    else pure (left, i)
termination_by structural fuel _ _ => fuel

/-- `parseEquality()`. -/
def parseEquality (ts : List Token) : Nat → Nat → Except PErr (PExpr × Nat)
  | 0, _ => .error fuelErr
  | fuel + 1, i => do
    let (l, i1) ← parseRelational ts fuel i
    parseEqualityLoop ts fuel l i1
termination_by structural fuel _ => fuel

def parseEqualityLoop (ts : List Token) : Nat → PExpr → Nat → Except PErr (PExpr × Nat)
  | 0, _, _ => .error fuelErr
  | fuel + 1, left, i =>
    if (peekT ts i).type = .Operator ∧
        ((peekT ts i).lexeme = "==" ∨ (peekT ts i).lexeme = "!=" ∨
         (peekT ts i).lexeme = "===" ∨ (peekT ts i).lexeme = "!==") then do
      let (r, i1) ← parseRelational ts fuel (i + 1)
      parseEqualityLoop ts fuel (.binary (peekT ts i).lexeme left r) i1
    else pure (left, i)
termination_by structural fuel _ _ => fuel

/-- `parseRelational()`. -/
def parseRelational (ts : List Token) : Nat → Nat → Except PErr (PExpr × Nat)
  | 0, _ => .error fuelErr
  | fuel + 1, i => do
    let (l, i1) ← parseAdditive ts fuel i
    parseRelationalLoop ts fuel l i1
termination_by structural fuel _ => fuel

def parseRelationalLoop (ts : List Token) : Nat → PExpr → Nat → Except PErr (PExpr × Nat)
  | 0, _, _ => .error fuelErr
  | fuel + 1, left, i =>
    if (peekT ts i).type = .Operator ∧
        ((peekT ts i).lexeme = "<" ∨ (peekT ts i).lexeme = ">" ∨
         (peekT ts i).lexeme = "<=" ∨ (peekT ts i).lexeme = ">=") then do
      let (r, i1) ← parseAdditive ts fuel (i + 1)
      parseRelationalLoop ts fuel (.binary (peekT ts i).lexeme left r) i1
    else pure (left, i)
termination_by structural fuel _ _ => fuel

/-- `parseAdditive()`. -/
def parseAdditive (ts : List Token) : Nat → Nat → Except PErr (PExpr × Nat)
  | 0, _ => .error fuelErr
  | fuel + 1, i => do
    let (l, i1) ← parseMultiplicative ts fuel i
    parseAdditiveLoop ts fuel l i1
termination_by structural fuel _ => fuel

def parseAdditiveLoop (ts : List Token) : Nat → PExpr → Nat → Except PErr (PExpr × Nat)
  | 0, _, _ => .error fuelErr
  | fuel + 1, left, i =>
    if (peekT ts i).type = .Operator ∧
        ((peekT ts i).lexeme = "+" ∨ (peekT ts i).lexeme = "-") then do
      let (r, i1) ← parseMultiplicative ts fuel (i + 1)
      parseAdditiveLoop ts fuel (.binary (peekT ts i).lexeme left r) i1
    else pure (left, i)
termination_by structural fuel _ _ => fuel

/-- `parseMultiplicative()`. -/
def parseMultiplicative (ts : List Token) : Nat → Nat → Except PErr (PExpr × Nat)
  | 0, _ => .error fuelErr
  | fuel + 1, i => do
    let (l, i1) ← parseUnary ts fuel i
    parseMultiplicativeLoop ts fuel l i1
termination_by structural fuel _ => fuel

def parseMultiplicativeLoop (ts : List Token) : Nat → PExpr → Nat → Except PErr (PExpr × Nat)
  | 0, _, _ => .error fuelErr
  | fuel + 1, left, i =>
    if (peekT ts i).type = .Operator ∧
        ((peekT ts i).lexeme = "*" ∨ (peekT ts i).lexeme = "/" ∨
         (peekT ts i).lexeme = "%") then do
      let (r, i1) ← parseUnary ts fuel (i + 1)
      parseMultiplicativeLoop ts fuel (.binary (peekT ts i).lexeme left r) i1
    else pure (left, i)
termination_by structural fuel _ _ => fuel

/-- `parseUnary()`. -/
def parseUnary (ts : List Token) : Nat → Nat → Except PErr (PExpr × Nat)
  | 0, _ => .error fuelErr
  | fuel + 1, i =>
    if (peekT ts i).type = .Operator ∧
        ((peekT ts i).lexeme = "!" ∨ (peekT ts i).lexeme = "+" ∨
         (peekT ts i).lexeme = "-") then do
      let (argument, i1) ← parseUnary ts fuel (i + 1)
      pure (.unary (peekT ts i).lexeme argument, i1)
    else parsePrimary ts fuel i
termination_by structural fuel _ => fuel

/-- The argument do-while loop of the call branch of `parsePrimary()`. -/
def parseArgs (ts : List Token) : Nat → Nat → Except PErr (List PExpr × Nat)
  | 0, _ => .error fuelErr
  | fuel + 1, i => do
    let (e, i1) ← parseExpression ts fuel i
    if (peekT ts i1).type = .Punctuation ∧ (peekT ts i1).lexeme = "," then do
      let (rest, i2) ← parseArgs ts fuel (i1 + 1)
      pure (e :: rest, i2)
    else pure ([e], i1)
termination_by structural fuel _ => fuel

/-- `parsePrimary()`. -/
def parsePrimary (ts : List Token) : Nat → Nat → Except PErr (PExpr × Nat)
  | 0, _ => .error fuelErr
  | fuel + 1, i =>
    let t := peekT ts i
    if t.type = .Number then pure (.literal (.num t.lexeme), i + 1)
    else if t.type = .String then
      pure (.literal (.str (String.mk ((t.lexeme.toList.drop 1).dropLast))), i + 1)
    else if t.type = .Keyword ∧
        (t.lexeme = "true" ∨ t.lexeme = "false" ∨ t.lexeme = "empty") then
      pure (.literal (if t.lexeme = "true" then .bool true
        else if t.lexeme = "false" then .bool false else .null), i + 1)
    else if t.type = .Identifier then
      if (peekT ts (i + 1)).type = .Punctuation ∧ (peekT ts (i + 1)).lexeme = "(" then do
        let (args, i2) ←
          (if (peekT ts (i + 2)).type = .Punctuation ∧ (peekT ts (i + 2)).lexeme = ")" then
            pure ([], i + 2)
          else parseArgs ts fuel (i + 2) : Except PErr (List PExpr × Nat))
        let (_, i3) ← expectT ts i2 .Punctuation (some ")")
        pure (.call (.ident t.lexeme) args, i3)
      else pure (.ident t.lexeme, i + 1)
    else if t.type = .Punctuation ∧ t.lexeme = "(" then do
      let (e, i1) ← parseExpression ts fuel (i + 1)
      let (_, i2) ← expectT ts i1 .Punctuation (some ")")
      pure (e, i2)
    else
      .error ⟨t.line, t.column,
        "unexpected token " ++ tokenTypeName t.type ++ " '" ++ t.lexeme ++ "'"⟩
termination_by structural fuel _ => fuel

end

/-- `parseProgram()`: parse statements from the beginning until end of
input. -/
def parseProgram (ts : List Token) (fuel : Nat) : Except PErr (List PStmt × Nat) :=
  parseProgramLoop ts fuel 0

end Parser

/-- `parse(source)` of src/parser.ts: tokenize, then parse a `Program`. -/
def rdParse (source : String) (fuel : Nat) :
    Except LexErr (Except PErr (List PStmt × Nat)) :=
  match Lexer.tokenize source with
  | .error e => .error e
  | .ok ts => .ok (Parser.parseProgram ts fuel)

/-- Acceptance by the recursive-descent parser: `parse(source)` returns
without throwing. -/
def rdAccepts (fuel : Nat) (source : String) : Bool :=
  match rdParse source fuel with
  | .error _ => false
  | .ok (.error _) => false
  | .ok (.ok _) => true

/-- Acceptance by the table-driven parser: `runLL1(source)` returns without
throwing (lexing, then `LL1Parser.parse` over the table built from the
computed FIRST/FOLLOW sets). -/
def ll1AcceptsT (table : ParseTable) (fuel : Nat) (source : String) : Bool :=
  match Lexer.tokenize source with
  | .error _ => false
  | .ok ts =>
    match LL1Parser.parse table ts fuel with
    | some (.ok _) => true
    | _ => false

def ll1Accepts (fuel : Nat) (source : String) : Bool :=
  ll1AcceptsT realTable fuel source

/-! ## First-writer-wins characterization of the parse table -/

/-- The terminals under which `buildParseTable` writes a production into its
row: `FIRST(body) \ ε`, followed by `FOLLOW(head)` when `ε ∈ FIRST(body)`. -/
def applicableTerminals (first : FirstMap) (follow : FollowMap) (p : Production) :
    List String :=
  let fb := firstOfBody first p.body
  fb.filter (fun x => x ≠ EPSILON) ++
    (if EPSILON ∈ fb then (lookupA follow p.head).getD [] else [])

theorem orElse_none {α : Type} (x : Option α) : (x.orElse (fun _ => none)) = x := by
  cases x <;> rfl

theorem none_orElse {α : Type} (f : Unit → Option α) :
    ((none : Option α).orElse f) = f () := rfl

theorem some_orElse {α : Type} (a : α) (f : Unit → Option α) :
    ((some a).orElse f) = some a := rfl

theorem lookupA_append {α : Type} (m1 m2 : List (String × α)) (k : String) :
    lookupA (m1 ++ m2) k = (lookupA m1 k).orElse (fun _ => lookupA m2 k) := by
  induction m1 with
  | nil => simp [lookupA, none_orElse]
  | cons kv m ih =>
    obtain ⟨k1, v1⟩ := kv
    rw [List.cons_append, lookupA, lookupA]
    split
    · rw [some_orElse]
    · exact ih

theorem lookupA_updateA {α : Type} (m : List (String × α)) (k : String) (v : α)
    (k' : String) :
    lookupA (updateA m k v) k' =
      if k' = k then (lookupA m k).map (fun _ => v) else lookupA m k' := by
  induction m with
  | nil => simp [updateA, lookupA]
  | cons kv m ih =>
    obtain ⟨k1, v1⟩ := kv
    simp only [updateA, List.map_cons] at ih ⊢
    by_cases hk1 : k1 = k
    · rw [if_pos (show (k1, v1).1 = k from hk1)]
      rw [lookupA]
      by_cases hkk : k = k'
      · rw [if_pos hkk, if_pos hkk.symm, lookupA, if_pos hk1]
        rfl
      · have hk'k : ¬ (k' = k) := fun hh => hkk hh.symm
        rw [if_neg hkk, ih, if_neg hk'k, if_neg hk'k, lookupA,
          if_neg (fun hh : k1 = k' => hkk (hk1.symm.trans hh))]
    · rw [if_neg (show ¬ ((k1, v1).1 = k) from hk1)]
      rw [lookupA]
      by_cases hk1' : k1 = k'
      · rw [if_pos hk1']
        rw [if_neg (fun hh : k' = k => hk1 (hk1'.trans hh)), lookupA, if_pos hk1']
      · rw [if_neg hk1', ih]
        by_cases hk'k : k' = k
        · rw [if_pos hk'k, if_pos hk'k, lookupA, if_neg hk1]
        · rw [if_neg hk'k, if_neg hk'k, lookupA, if_neg hk1']

theorem lookupA_rowInsert (row : TableRow) (ks : List String) (p : Production)
    (t : String) :
    lookupA (rowInsert row ks p) t =
      (lookupA row t).orElse (fun _ => if t ∈ ks then some p else none) := by
  induction ks generalizing row with
  | nil =>
    rw [rowInsert]
    simp only [List.foldl_nil, List.not_mem_nil, if_false]
    rw [orElse_none]
  | cons k ks ih =>
    rw [rowInsert, List.foldl_cons, ← rowInsert]
    rw [ih]
    by_cases hp : (lookupA row k).isSome
    · rw [if_pos hp]
      cases h0 : lookupA row t with
      | some v => simp only [some_orElse]
      | none =>
        simp only [none_orElse]
        have hne : t ≠ k := by
          intro hh
          rw [← hh] at hp
          rw [h0] at hp
          simp at hp
        have hiff : t ∈ k :: ks ↔ t ∈ ks := by
          simp only [List.mem_cons, or_iff_right_iff_imp]
          intro hh
          exact absurd hh hne
        by_cases hm : t ∈ ks
        · rw [if_pos hm, if_pos (hiff.mpr hm)]
        · rw [if_neg hm, if_neg (fun hh => hm (hiff.mp hh))]
    · rw [if_neg hp]
      rw [lookupA_append]
      cases h0 : lookupA row t with
      | some v => simp only [some_orElse]
      | none =>
        simp only [none_orElse]
        rw [lookupA]
        by_cases hk : k = t
        · rw [if_pos hk, some_orElse, if_pos (by rw [← hk]; exact List.mem_cons_self _ _)]
        · rw [if_neg hk]
          simp only [lookupA, none_orElse]
          have hiff : t ∈ k :: ks ↔ t ∈ ks := by
            simp only [List.mem_cons, or_iff_right_iff_imp]
            intro hh
            exact absurd hh.symm hk
          by_cases hm : t ∈ ks
          · rw [if_pos hm, if_pos (hiff.mpr hm)]
          · rw [if_neg hm, if_neg (fun hh => hm (hiff.mp hh))]

theorem rowInsert_append (row : TableRow) (a b : List String) (p : Production) :
    rowInsert (rowInsert row a p) b p = rowInsert row (a ++ b) p := by
  rw [rowInsert, rowInsert, rowInsert, List.foldl_append]

theorem applyProd_keys (first : FirstMap) (follow : FollowMap) (table : ParseTable)
    (p : Production) (k : String) :
    (lookupA (applyProd first follow table p) k).isSome = (lookupA table k).isSome := by
  rw [applyProd]
  split
  · rw [lookupA_updateA]
    split
    · rename_i hk
      rw [hk]
      cases lookupA table p.head <;> rfl
    · rfl
  · rfl

theorem lookupCell_applyProd (first : FirstMap) (follow : FollowMap)
    (table : ParseTable) (p : Production) (h t : String)
    (hkeys : ∀ k, (lookupA table k).isSome ↔ k ∈ NON_TERMINALS) :
    lookupCell (applyProd first follow table p) h t =
      (lookupCell table h t).orElse (fun _ =>
        if p.head = h ∧ h ∈ NON_TERMINALS ∧ t ∈ applicableTerminals first follow p
        then some p else none) := by
  rw [applyProd]
  split
  · rename_i hmem
    rw [lookupCell, lookupA_updateA]
    by_cases hh : h = p.head
    · rw [if_pos hh]
      have hsome : (lookupA table p.head).isSome := (hkeys p.head).mpr hmem
      cases h0 : lookupA table p.head with
      | none => rw [h0] at hsome; simp at hsome
      | some row0 =>
        simp only [Option.map_some', Option.some_bind, Option.getD_some]
        have hrow2 :
            (if EPSILON ∈ firstOfBody first p.body then
              rowInsert
                (rowInsert row0 ((firstOfBody first p.body).filter (fun x => x ≠ EPSILON)) p)
                ((lookupA follow p.head).getD []) p
            else
              rowInsert row0 ((firstOfBody first p.body).filter (fun x => x ≠ EPSILON)) p)
            = rowInsert row0 (applicableTerminals first follow p) p := by
          rw [applicableTerminals]
          split
          · rw [rowInsert_append]
          · rw [List.append_nil]
        rw [hrow2, lookupA_rowInsert]
        rw [lookupCell, hh, h0, Option.some_bind]
        have hiff : (p.head = p.head ∧ p.head ∈ NON_TERMINALS ∧ t ∈ applicableTerminals first follow p)
            ↔ (t ∈ applicableTerminals first follow p) :=
          ⟨fun hc => hc.2.2, fun ht' => ⟨rfl, hmem, ht'⟩⟩
        rw [if_congr hiff rfl rfl]
    · rw [if_neg hh]
      have hcond : ¬ (p.head = h ∧ h ∈ NON_TERMINALS ∧ t ∈ applicableTerminals first follow p) :=
        fun hc => hh hc.1.symm
      rw [if_neg hcond, lookupCell, orElse_none]
  · rename_i hmem
    have hcond : ¬ (p.head = h ∧ h ∈ NON_TERMINALS ∧ t ∈ applicableTerminals first follow p) :=
      fun hc => hmem (hc.1 ▸ hc.2.1)
    rw [if_neg hcond, orElse_none]

theorem lookupCell_applyProds (first : FirstMap) (follow : FollowMap)
    (prods : List Production) :
    ∀ (table : ParseTable),
      (∀ k, (lookupA table k).isSome ↔ k ∈ NON_TERMINALS) →
      ∀ (h t : String),
      lookupCell (prods.foldl (applyProd first follow) table) h t =
        (lookupCell table h t).orElse (fun _ =>
          if h ∈ NON_TERMINALS then
            prods.find? (fun p => decide (p.head = h ∧ t ∈ applicableTerminals first follow p))
          else none) := by
  induction prods with
  | nil =>
    intro table hkeys h t
    simp only [List.foldl_nil, List.find?_nil]
    have hn : (if h ∈ NON_TERMINALS then (none : Option Production) else none) = none := by
      split <;> rfl
    rw [hn, orElse_none]
  | cons p ps ih =>
    intro table hkeys h t
    rw [List.foldl_cons]
    have hkeys' : ∀ k, (lookupA (applyProd first follow table p) k).isSome ↔ k ∈ NON_TERMINALS := by
      intro k
      rw [applyProd_keys]
      exact hkeys k
    rw [ih (applyProd first follow table p) hkeys' h t]
    rw [lookupCell_applyProd first follow table p h t hkeys]
    rw [List.find?_cons]
    cases h0 : lookupCell table h t with
    | some v => simp only [some_orElse]
    | none =>
      simp only [none_orElse]
      by_cases hNT : h ∈ NON_TERMINALS
      · by_cases hp : p.head = h ∧ t ∈ applicableTerminals first follow p
        · rw [if_pos ⟨hp.1, hNT, hp.2⟩, some_orElse, if_pos hNT, decide_eq_true hp]
        · rw [if_neg (fun hc => hp ⟨hc.1, hc.2.2⟩), none_orElse, if_pos hNT,
            if_pos hNT, decide_eq_false hp]
      · rw [if_neg (fun hc => hNT hc.2.1), none_orElse, if_neg hNT, if_neg hNT]

theorem lookupA_initTable (l : List String) (k : String) :
    lookupA (l.map (fun nt => (nt, ([] : TableRow)))) k
      = if k ∈ l then some [] else none := by
  induction l with
  | nil => simp [lookupA]
  | cons x l ih =>
    rw [List.map_cons, lookupA]
    by_cases hx : x = k
    · rw [if_pos hx, if_pos (by rw [← hx]; exact List.mem_cons_self _ _)]
    · rw [if_neg hx, ih]
      have hiff : k ∈ x :: l ↔ k ∈ l := by
        simp only [List.mem_cons, or_iff_right_iff_imp]
        intro hh
        exact absurd hh.symm hx
      by_cases hm : k ∈ l
      · rw [if_pos hm, if_pos (hiff.mpr hm)]
      · rw [if_neg hm, if_neg (fun hh => hm (hiff.mp hh))]

/-- First-writer-wins: each cell of the built table holds exactly the
earliest-declared production applicable to it, and heads outside the declared
non-terminals have no cell. -/
theorem lookupCell_buildParseTable (first : FirstMap) (follow : FollowMap)
    (h t : String) :
    lookupCell (buildParseTable first follow) h t =
      (if h ∈ NON_TERMINALS then
        PRODUCTIONS.find? (fun p => decide (p.head = h ∧ t ∈ applicableTerminals first follow p))
       else none) := by
  rw [buildParseTable]
  have hkeys : ∀ k, (lookupA (NON_TERMINALS.map (fun nt => (nt, ([] : TableRow)))) k).isSome ↔ k ∈ NON_TERMINALS := by
    intro k
    rw [lookupA_initTable]
    split <;> simp_all
  rw [lookupCell_applyProds first follow PRODUCTIONS _ hkeys h t]
  have hinit : lookupCell (NON_TERMINALS.map (fun nt => (nt, ([] : TableRow)))) h t = none := by
    rw [lookupCell, lookupA_initTable]
    split <;> simp [lookupA]
  rw [hinit, none_orElse]

/-! ## The claims -/

theorem computeFirstSets_eq : computeFirstSets = firstL10 := realFirst_eq

theorem computeFollowSets_eq : computeFollowSets computeFirstSets = followL2 :=
  realFollow_eq

/-- The per-production FIRST closure walk of claim C3: every prefix-nullable
position contributes `FIRST(symbol) \ ε` to `FIRST(head)`, and a fully
nullable body contributes `ε`. -/
def firstClosedBody (first : FirstMap) (fh : List String) : List String → Bool
  | [] => fh.contains EPSILON
  | s :: rest =>
    let fs := (lookupA first s).getD []
    ((fs.filter (fun x => x ≠ EPSILON)).all (fun x => fh.contains x)) &&
      (if fs.contains EPSILON then firstClosedBody first fh rest else true)

/-- C3's closure condition for one production. -/
def firstClosedUnder (first : FirstMap) (p : Production) : Bool :=
  firstClosedBody first ((lookupA first p.head).getD []) p.body

/-- Claim C3: `computeFirstSets` returns a table with `FIRST(t) = {t}` for
every declared terminal, `FIRST(ε) = {ε}`, the per-production closure rules
satisfied, and the table a fixed point of one more pass. -/
theorem spec_c3 :
    (TERMINALS.all (fun t => lookupA computeFirstSets t == some [t])) = true ∧
    lookupA computeFirstSets EPSILON = some [EPSILON] ∧
    (PRODUCTIONS.all (fun p => firstClosedUnder computeFirstSets p)) = true ∧
    firstPass computeFirstSets = computeFirstSets := by
  refine ⟨?_, ?_, ?_, ?_⟩
  · rw [computeFirstSets_eq]
    decide
  · rw [computeFirstSets_eq]
    decide
  · rw [computeFirstSets_eq]
    decide
  · rw [computeFirstSets_eq]
    exact firstStep10

/-- The per-occurrence FOLLOW condition of claim C4 for `head → … B β`:
`FIRST(β) \ ε ⊆ FOLLOW(B)`, and `FOLLOW(head) ⊆ FOLLOW(B)` when `β` is empty
or nullable. -/
def followClosedOcc (first : FirstMap) (follow : FollowMap) (head : String) :
    List String → Bool
  | [] => true
  | B :: beta =>
    (if B ∈ NON_TERMINALS then
      let fb := (lookupA follow B).getD []
      let fbeta := firstOfBody first beta
      ((fbeta.filter (fun x => x ≠ EPSILON)).all (fun x => fb.contains x)) &&
        (if fbeta.contains EPSILON then
          (((lookupA follow head).getD []).all (fun x => fb.contains x))
        else true)
    else true) && followClosedOcc first follow head beta

/-- C4's closure condition for one production. -/
def followClosedUnder (first : FirstMap) (follow : FollowMap) (p : Production) : Bool :=
  followClosedOcc first follow p.head p.body

/-- Claim C4: `computeFollowSets` returns a table with `$ ∈ FOLLOW` of the
start symbol, the per-production propagation rules satisfied, and the table a
fixed point of one more pass. -/
theorem spec_c4 :
    (((lookupA (computeFollowSets computeFirstSets) START_SYMBOL).getD []).contains "$") = true ∧
    (PRODUCTIONS.all
      (fun p => followClosedUnder computeFirstSets (computeFollowSets computeFirstSets) p)) = true ∧
    followPass computeFirstSets (computeFollowSets computeFirstSets)
      = computeFollowSets computeFirstSets := by
  refine ⟨?_, ?_, ?_⟩
  · rw [computeFollowSets_eq]
    decide
  · rw [computeFollowSets_eq, computeFirstSets_eq]
    decide
  · rw [computeFollowSets_eq, computeFirstSets_eq]
    exact followStep2

/-- Claim C5: `buildParseTable` fills each cell first-writer-wins over the
declaration order: a cell `(head, t)` holds exactly the earliest-declared
production whose head is `head` and which is applicable at `t`, i.e. `t` lies
in `FIRST(body) \ ε`, or in `FOLLOW(head)` when `ε ∈ FIRST(body)`. -/
theorem spec_c5 (first : FirstMap) (follow : FollowMap) (h t : String) :
    lookupCell (buildParseTable first follow) h t =
      (if h ∈ NON_TERMINALS then
        PRODUCTIONS.find?
          (fun p => decide (p.head = h ∧ t ∈ applicableTerminals first follow p))
       else none) :=
  lookupCell_buildParseTable first follow h t

/-- Witness for C5: the cell (Program, $) of the table built from the
computed FIRST/FOLLOW literals holds the Program production. -/
theorem spec_c5_witness :
    lookupCell (buildParseTable firstL10 followL2) "Program" "$" =
      some ⟨"Program", ["StmtList", "$"]⟩ :=
  (spec_c5 firstL10 followL2 "Program" "$").trans (by decide)

/-- Counterexample to claim C8 as stated: on the input `let` the tokenizer
does not return a token sequence at all; it throws a lexical error. -/
theorem c8_counterexample :
    Lexer.tokenize "let" =
      .error ⟨1, 1, "'let' is not valid in this language. Use 'put' instead."⟩ := by
  decide

/-- Claim C8 (amended): for every input string `tokenize` terminates, and
either throws a `LexicalError` (forbidden legacy identifier) or returns a
finite token sequence containing exactly one end-of-stream token, which is
its last element. -/
theorem spec_c8 (source : String) :
    (∃ e, Lexer.tokenize source = .error e) ∨
    (∃ toks, Lexer.tokenize source = .ok toks ∧ toks ≠ [] ∧
      (∃ te, toks.getLast? = some te ∧ te.type = .EOF) ∧
      toks.countP (fun tk => tk.type == .EOF) = 1) := by
  have htot := Lexer.tokenizeAux_total (source.toList.length + 1) source.toList 1 1
    (Nat.lt_succ_self _)
  obtain ⟨res, hres⟩ := Option.isSome_iff_exists.mp htot
  have heq := Lexer.tokenize_eq hres
  cases res with
  | error e => exact Or.inl ⟨e, heq⟩
  | ok toks =>
    obtain ⟨h1, h2, h3⟩ := Lexer.tokenizeAux_ok _ _ _ _ _ hres
    exact Or.inr ⟨toks, heq, h1, h2, h3⟩

/-- A string is an infix of any enclosing concatenation. -/
theorem data_infix_mid (a : String) (l : String) (b : String) :
    l.data <:+: (a ++ l ++ b).data := by
  rw [String.data_append, String.data_append]
  exact ⟨a.data, b.data, rfl⟩

/-- Claim C7: `tokenToTerminal` maps end-of-stream tokens to the terminal
`$`; whenever it throws instead of returning a terminal, the error carries
the token's line and column and its literal text; and the unmapped samples
(`do`, `for`, `[`, `.`, `++`, `--`) all throw. -/
theorem spec_c7 :
    (∀ t : Token, t.type = .EOF → tokenToTerminal t = .ok "$") ∧
    (∀ (t : Token) (e : PErr), tokenToTerminal t = .error e →
      e.line = t.line ∧ e.column = t.column ∧ t.lexeme.data <:+: e.msg.data) ∧
    (tokenToTerminal ⟨.Keyword, "do", 2, 3⟩).isOk = false ∧
    (tokenToTerminal ⟨.Keyword, "for", 2, 3⟩).isOk = false ∧
    (tokenToTerminal ⟨.Punctuation, "[", 2, 3⟩).isOk = false ∧
    (tokenToTerminal ⟨.Punctuation, ".", 2, 3⟩).isOk = false ∧
    (tokenToTerminal ⟨.Operator, "++", 2, 3⟩).isOk = false ∧
    (tokenToTerminal ⟨.Operator, "--", 2, 3⟩).isOk = false := by
  refine ⟨?_, ?_, by decide, by decide, by decide, by decide, by decide, by decide⟩
  · intro t ht
    obtain ⟨ty, lx, ln, col⟩ := t
    cases ty <;>
      first
      | rfl
      | simp at ht
  · intro t e he
    obtain ⟨ty, lx, ln, col⟩ := t
    cases ty <;> rw [tokenToTerminal] at he <;>
      split at he <;>
      first
      | (cases he
         done)
      | (rename_i heq
         simp at heq
         done)
      | (split at he <;>
         first
         | (cases he
            done)
         | (injection he with h1
            rw [← h1]
            exact ⟨rfl, rfl, data_infix_mid _ _ _⟩))

/-- Witness for C7: the end-of-stream token maps to `$`, and the error
thrown on the keyword `do` carries its position and literal text. -/
theorem spec_c7_witness :
    tokenToTerminal ⟨.EOF, "<EOF>", 1, 1⟩ = .ok "$" ∧
    ((⟨2, 3, "keyword 'do' não está na gramática LL(1)'"⟩ : PErr).line = 2 ∧
     (⟨2, 3, "keyword 'do' não está na gramática LL(1)'"⟩ : PErr).column = 3 ∧
     ("do".data : List Char) <:+:
       ("keyword 'do' não está na gramática LL(1)'".data : List Char)) :=
  ⟨spec_c7.1 ⟨.EOF, "<EOF>", 1, 1⟩ rfl,
   spec_c7.2.1 ⟨.Keyword, "do", 2, 3⟩ _ (by decide)⟩

/-- The token sequences used by the concrete claims below. -/
def c2toks : List Token :=
  [⟨.EOF, "<EOF>", 1, 1⟩, ⟨.EOF, "<EOF>", 1, 2⟩, ⟨.Keyword, "do", 1, 3⟩]

def c2toksB : List Token :=
  [⟨.EOF, "<EOF>", 1, 1⟩, ⟨.EOF, "<EOF>", 1, 2⟩, ⟨.Number, "7", 2, 4⟩]

/-- Counterexample to claim C2 as stated: on this token sequence the loop
ends with an empty stack (`done`) and the lookahead is not the end-of-input
terminal — it maps to no terminal at all — yet the error says that the
keyword is not in the grammar, not that input was left unconsumed. -/
theorem c2_counterexample :
    LL1Parser.parseLoop realTable c2toks 50 LL1Parser.initConfig = .done 2 ∧
    LL1Parser.currentToken c2toks 2 = some ⟨.Keyword, "do", 1, 3⟩ ∧
    tokenToTerminal ⟨.Keyword, "do", 1, 3⟩ ≠ .ok "$" ∧
    LL1Parser.parse realTable c2toks 50 =
      some (.error ⟨1, 3, "keyword 'do' não está na gramática LL(1)'"⟩) ∧
    "keyword 'do' não está na gramática LL(1)'" ≠ LL1Parser.notConsumedMsg := by
  rw [realTable_eq]
  refine ⟨by decide, by decide, by decide, by decide, by decide⟩

/-- Claim C2 (amended): `LL1Parser.parse` returns normally exactly when the
loop ends with an empty stack and the remaining lookahead maps to `$`; when
the stack empties and the lookahead maps to some other terminal it throws
the not-fully-consumed `SyntaxError`; when the lookahead maps to no terminal
it propagates that mapping error; in-loop errors and fuel exhaustion are
passed through unchanged, and no partial result is ever produced. -/
theorem spec_c2 (table : ParseTable) (ts : List Token) (fuel : Nat) :
    (LL1Parser.parse table ts fuel = some (.ok ()) ↔
      (∃ i, LL1Parser.parseLoop table ts fuel LL1Parser.initConfig = .done i ∧
        ∃ la, LL1Parser.currentToken ts i = some la ∧ tokenToTerminal la = .ok "$")) ∧
    (∀ i la a, LL1Parser.parseLoop table ts fuel LL1Parser.initConfig = .done i →
      LL1Parser.currentToken ts i = some la → tokenToTerminal la = .ok a → a ≠ "$" →
      LL1Parser.parse table ts fuel =
        some (.error ⟨la.line, la.column, LL1Parser.notConsumedMsg⟩)) ∧
    (∀ i la e, LL1Parser.parseLoop table ts fuel LL1Parser.initConfig = .done i →
      LL1Parser.currentToken ts i = some la → tokenToTerminal la = .error e →
      LL1Parser.parse table ts fuel = some (.error e)) ∧
    (∀ e, LL1Parser.parseLoop table ts fuel LL1Parser.initConfig = .err e →
      LL1Parser.parse table ts fuel = some (.error e)) ∧
    (LL1Parser.parseLoop table ts fuel LL1Parser.initConfig = .out →
      LL1Parser.parse table ts fuel = none) := by
  refine ⟨?_, ?_, ?_, ?_, ?_⟩
  · constructor
    · intro hok
      rw [LL1Parser.parse] at hok
      split at hok
      · simp at hok
      · rename_i i hloop
        injection hok with hok1
        refine ⟨i, hloop, ?_⟩
        rw [LL1Parser.acceptCheck] at hok1
        split at hok1
        · simp at hok1
        · rename_i la hla
          split at hok1
          · simp at hok1
          · rename_i a hterm
            split at hok1
            · rename_i ha
              exact ⟨la, hla, by rw [hterm, ha]⟩
            · simp at hok1
      · simp at hok
    · rintro ⟨i, hloop, la, hla, hterm⟩
      simp only [LL1Parser.parse, hloop, LL1Parser.acceptCheck, hla, hterm,
        reduceIte]
  · intro i la a hloop hla hterm hne
    simp only [LL1Parser.parse, hloop, LL1Parser.acceptCheck, hla, hterm]
    rw [if_neg hne]
  · intro i la e hloop hla hterm
    simp only [LL1Parser.parse, hloop, LL1Parser.acceptCheck, hla, hterm]
  · intro e hloop
    simp only [LL1Parser.parse, hloop]
  · intro hloop
    simp only [LL1Parser.parse, hloop]

/-- Witness for C2: on [end-of-stream, end-of-stream, number] the stack
empties with the number as leftover lookahead, and parse reports that the
input was not fully consumed, at the number's position. -/
theorem spec_c2_witness :
    LL1Parser.parse tableLit c2toksB 50 =
      some (.error ⟨2, 4, LL1Parser.notConsumedMsg⟩) :=
  (spec_c2 tableLit c2toksB 50).2.1 2 ⟨.Number, "7", 2, 4⟩ "NUMBER"
    (by decide) (by decide) (by decide) (by decide)

/-! ### C1: the two recognizers -/

/-- Claim C1 fails: the source text `1;` — a bare expression statement —
is accepted by the recursive-descent parser but rejected by the
table-driven LL(1) parser, because `PRODUCTIONS` contains no
`Stmt → ExprStmt` production (despite the grammar header documenting one),
so the `Program` row of the parse table has no entry for `NUMBER`. -/
theorem spec_c1_divergence :
    rdAccepts 100 "1;" = true ∧
    ll1Accepts 100 "1;" = false ∧
    lookupCell realTable "Program" "NUMBER" = none ∧
    (∀ p ∈ PRODUCTIONS, p.head = "Stmt" → p.body ≠ ["ExprStmt"]) := by
  refine ⟨by decide, ?_, ?_, by decide⟩
  · show ll1AcceptsT realTable 100 "1;" = false
    rw [realTable_eq]
    decide
  · rw [realTable_eq]
    decide

/-! ### C6: the missing-semicolon scenario -/

/-- The token sequence of `put x = 5`. -/
def c6toks : List Token :=
  [⟨.Keyword, "put", 1, 1⟩, ⟨.Identifier, "x", 1, 5⟩, ⟨.Operator, "=", 1, 7⟩,
   ⟨.Number, "5", 1, 9⟩, ⟨.EOF, "<EOF>", 1, 10⟩]

/-- The error message actually produced on `put x = 5`. -/
def c6msg : String := "não existe produção LL(1) para par (MulExprTail, $)"

/-- Counterexample to claim C6 as stated: on `put x = 5` the error is
indeed reported at the end-of-input token's position (1,10), but its
message names the table miss for the pair (MulExprTail, $) — the string
`SEMICOLON` appears nowhere in it. -/
theorem c6_counterexample :
    Lexer.tokenize "put x = 5" = .ok c6toks ∧
    c6toks.getLast? = some ⟨.EOF, "<EOF>", 1, 10⟩ ∧
    LL1Parser.parse realTable c6toks 100 = some (.error ⟨1, 10, c6msg⟩) ∧
    ¬ ("SEMICOLON".data <:+: c6msg.data) := by
  refine ⟨by decide, by decide, ?_, by decide⟩
  rw [realTable_eq]
  decide

/-- Claim C6 (amended): on `put x = 5` the table-driven parser throws a
`SyntaxError` at the end-of-input token's line and column (1,10), and its
message reports the missing table entry for the pair (MulExprTail, $)
rather than naming SEMICOLON. -/
theorem spec_c6 :
    Lexer.tokenize "put x = 5" = .ok c6toks ∧
    c6toks.getLast? = some ⟨.EOF, "<EOF>", 1, 10⟩ ∧
    LL1Parser.parse realTable c6toks 100 = some (.error ⟨1, 10, c6msg⟩) ∧
    "MulExprTail".data <:+: c6msg.data ∧
    "$".data <:+: c6msg.data := by
  refine ⟨by decide, by decide, ?_, by decide, by decide⟩
  rw [realTable_eq]
  decide

/-! ### C9: the clamped cursor -/

/-- Claim C9: `currentToken` clamps its cursor — any out-of-range read
returns the last token, so reads on a non-empty token array never miss;
the `Program` production ends in the `$` terminal and the initial stack
carries a second `$` at its bottom; and the one-token sequence holding
just the end-of-stream token is accepted, both `$`s matching that single
token. -/
theorem spec_c9 :
    (∀ (ts : List Token) (i : Nat), ts.length ≤ i →
      LL1Parser.currentToken ts i = ts.get? (ts.length - 1)) ∧
    (∀ (ts : List Token) (i : Nat), ts ≠ [] →
      ∃ t, LL1Parser.currentToken ts i = some t) ∧
    PRODUCTIONS.get? 0 = some ⟨"Program", ["StmtList", "$"]⟩ ∧
    LL1Parser.initConfig.stack = ["Program", "$"] ∧
    LL1Parser.parse realTable [⟨.EOF, "<EOF>", 1, 1⟩] 50 = some (.ok ()) := by
  refine ⟨?_, ?_, by decide, by decide, ?_⟩
  · intro ts i h
    rw [LL1Parser.currentToken, List.get?_eq_none.mpr h]
    rfl
  · intro ts i h
    rcases hi : ts.get? i with _ | t
    · refine ⟨ts.getLast h, ?_⟩
      rw [LL1Parser.currentToken, hi]
      show ts.get? (ts.length - 1) = _
      rw [List.get?_eq_getElem?, ← List.getLast?_eq_getElem?]
      exact List.getLast?_eq_getLast ts h
    · exact ⟨t, by rw [LL1Parser.currentToken, hi]; rfl⟩
  · rw [realTable_eq]
    decide

/-- Witness for C9: reading far past the end of a one-token array still
returns that token. -/
theorem spec_c9_witness :
    LL1Parser.currentToken [⟨.EOF, "<EOF>", 1, 1⟩] 5 =
      some ⟨.EOF, "<EOF>", 1, 1⟩ :=
  (spec_c9.1 [⟨.EOF, "<EOF>", 1, 1⟩] 5 (by decide)).trans rfl

/-! ### C10: the stack invariant -/

/-- Configurations reachable by the loop of `parse` from the initial
stack. -/
def ReachLL1 (table : ParseTable) (ts : List Token) (c : LL1Parser.Config) : Prop :=
  Relation.ReflTransGen
    (fun a b => LL1Parser.stepCfg table ts a = .next b) LL1Parser.initConfig c

/-- Every symbol of every production body other than the ε marker is a
declared terminal or non-terminal. -/
theorem PRODUCTIONS_bodies_good :
    ∀ p ∈ PRODUCTIONS, ∀ s ∈ p.body, s ≠ EPSILON →
      s ∈ TERMINALS ∨ s ∈ NON_TERMINALS := by decide

/-- A production read out of a cell of `buildParseTable` is one of the
declared productions. -/
theorem lookupCell_mem (first : FirstMap) (follow : FollowMap)
    (h t : String) (p : Production)
    (hp : lookupCell (buildParseTable first follow) h t = some p) :
    p ∈ PRODUCTIONS := by
  rw [lookupCell_buildParseTable] at hp
  split at hp
  · exact List.mem_of_find?_eq_some hp
  · cases hp

/-- One loop step of `parse` over a built table preserves the stack's
symbols being declared terminals or non-terminals. -/
theorem stepCfg_preserves (first : FirstMap) (follow : FollowMap)
    (ts : List Token) (c c' : LL1Parser.Config)
    (hg : ∀ s ∈ c.stack, s ∈ TERMINALS ∨ s ∈ NON_TERMINALS)
    (hstep : LL1Parser.stepCfg (buildParseTable first follow) ts c = .next c') :
    ∀ s ∈ c'.stack, s ∈ TERMINALS ∨ s ∈ NON_TERMINALS := by
  rw [LL1Parser.stepCfg] at hstep
  split at hstep
  · cases hstep
  · rename_i X rest hstack
    have hrest : ∀ s ∈ rest, s ∈ TERMINALS ∨ s ∈ NON_TERMINALS :=
      fun s hs => hg s (hstack ▸ List.mem_cons_of_mem X hs)
    split at hstep
    · cases hstep
    · split at hstep
      · cases hstep
      · rename_i la hla a hterm
        split at hstep
        · split at hstep
          · injection hstep with h1
            rw [← h1]
            exact hrest
          · cases hstep
        · split at hstep
          · injection hstep with h1
            rw [← h1]
            exact hrest
          · split at hstep
            · cases hstep
            · rename_i row hrow
              split at hstep
              · cases hstep
              · rename_i prod hprod
                injection hstep with h1
                rw [← h1]
                intro s hs
                rcases List.mem_append.mp hs with hs1 | hs2
                · have hmem := List.mem_filter.mp hs1
                  refine PRODUCTIONS_bodies_good prod ?_ s hmem.1
                    (by simpa using hmem.2)
                  refine lookupCell_mem first follow X a prod ?_
                  rw [lookupCell, hrow]
                  exact hprod
                · exact hrest s hs2

/-- Claim C10: from the initial configuration, every reachable stack of the
loop of `parse` (over any table built by `buildParseTable`) holds only
declared terminal or non-terminal names and never the ε marker — so the
pop-ε branch never fires on a reachable state — and expanding an ε-bodied
production pushes nothing onto the stack. -/
theorem spec_c10 (first : FirstMap) (follow : FollowMap) (ts : List Token) :
    (∀ c : LL1Parser.Config,
      ReachLL1 (buildParseTable first follow) ts c →
      ∀ s ∈ c.stack, (s ∈ TERMINALS ∨ s ∈ NON_TERMINALS) ∧ s ≠ EPSILON) ∧
    (∀ rest : List String, LL1Parser.pushBody [EPSILON] rest = rest) := by
  have hgood : ∀ c : LL1Parser.Config,
      ReachLL1 (buildParseTable first follow) ts c →
      ∀ s ∈ c.stack, s ∈ TERMINALS ∨ s ∈ NON_TERMINALS := by
    intro c hc
    induction hc with
    | refl =>
      intro s hs
      have hs2 : s = "Program" ∨ s = "$" := by
        simpa [LL1Parser.initConfig, START_SYMBOL] using hs
      rcases hs2 with rfl | rfl
      · exact Or.inr (by decide)
      · exact Or.inl (by decide)
    | tail hab hbc ih =>
      exact stepCfg_preserves first follow ts _ _ ih hbc
  refine ⟨fun c hc s hs => ⟨hgood c hc s hs, ?_⟩, fun rest => rfl⟩
  intro heps
  rcases hgood c hc s hs with hT | hN
  · rw [heps] at hT
    exact absurd hT (by decide)
  · rw [heps] at hN
    exact absurd hN (by decide)

/-- Witness for C10: the initial configuration is reachable, its top symbol
`Program` is a declared non-terminal distinct from ε, and expanding an
ε-body onto the remaining stack `["$"]` leaves it unchanged. -/
theorem spec_c10_witness :
    (("Program" ∈ TERMINALS ∨ "Program" ∈ NON_TERMINALS) ∧ "Program" ≠ EPSILON) ∧
    LL1Parser.pushBody [EPSILON] ["$"] = ["$"] :=
  ⟨(spec_c10 realFirst realFollow []).1 LL1Parser.initConfig
      Relation.ReflTransGen.refl "Program" (by decide),
   (spec_c10 realFirst realFollow []).2 ["$"]⟩

/-- Witness for C8: on the empty input the tokenizer returns a sequence
whose single token is the final end-of-stream token. -/
theorem spec_c8_witness :
    (∃ e, Lexer.tokenize "" = .error e) ∨
    (∃ toks, Lexer.tokenize "" = .ok toks ∧ toks ≠ [] ∧
      (∃ te, toks.getLast? = some te ∧ te.type = .EOF) ∧
      toks.countP (fun tk => tk.type == .EOF) = 1) := spec_c8 ""
